import Mathlib

/-!
Verification development for the `ole-rs` CFB (OLE2 compound file) parser.

The definitions below are a shallow embedding of the Rust sources:
  * `src/src/constants.rs`   — sentinel constants;
  * `src/src/header.rs`      — `parse_raw_header`, `OleHeader::from_raw`;
  * `src/common/src/directory.rs` — `DirectoryEntryRaw::parse`, `DirectoryEntry::from_raw`;
  * `src/src/lib.rs`         — `OleFile::parse` and its table-building helpers,
                               `find_stream`, `open_stream`, `list_*`, `root`;
  * `src/common/src/ftype.rs` and the `encryption` modules — the tail of `parse`.

Bytes are modelled as `Nat` (inputs are byte lists, each element < 256), u16/u32/u64
fields as `Nat` obtained by little-endian recomposition.  Fallible Rust code returns
`Res α`: `.ok`/`.err` are `Result::Ok`/`Result::Err`, and `.crash` models a Rust
panic or divergence (index out of bounds, `unwrap`, `expect`, `assert`, or an
infinite chain-walk loop).  The chain walks and the recursive `find_stream` take an
explicit fuel; callers inside `parse` pass a fuel strictly larger than the longest
possible terminating walk (see `enough_fuel`), so running out of fuel coincides
with a genuine infinite loop in the source and is mapped to `.crash`.
-/

set_option maxRecDepth 100000

namespace Ole

/-! ## Constants (`src/src/constants.rs`) -/

def HEADER_LENGTH : Nat := 512

def MAGIC_BYTES : List Nat := [0xD0, 0xCF, 0x11, 0xE0, 0xA1, 0xB1, 0x1A, 0xE1]

def CHAIN_END : Nat := 0xFFFFFFFE

def UNALLOCATED_SECTOR : Nat := 0xFFFFFFFF

def SIZE_OF_DIRECTORY_ENTRY : Nat := 128

def MAJOR_VERSION_3_VALUE : Nat := 3

def MAX_REG_STREAM_ID_VALUE : Nat := 0xFFFFFFFA

def NO_STREAM : List Nat := [0xFF, 0xFF, 0xFF, 0xFF]

/-! ## Byte-level helpers -/

/-- Little-endian recomposition of a byte list (`uNN::from_le_bytes`). -/
def fromLE (bs : List Nat) : Nat := bs.foldr (fun b acc => b + 256 * acc) 0

/-- Little-endian decomposition of a u32 value, used to build test inputs. -/
def u32le (v : Nat) : List Nat :=
  [v % 256, v / 256 % 256, v / 65536 % 256, v / 16777216 % 256]

/-- Fuel-driven worker for `chunksExact` (structural recursion on the fuel, so
that proofs by evaluation can reduce it; the wrapper passes enough fuel for the
recursion never to bottom out). -/
def chunksExactAux (n : Nat) : Nat → List α → List (List α)
  | 0, _ => []
  | fuel + 1, l =>
    if n ≤ l.length ∧ n ≠ 0 then l.take n :: chunksExactAux n fuel (l.drop n)
    else []

/-- Rust `slice::chunks_exact n`: full chunks only, remainder dropped.  Each
step consumes `n ≥ 1` elements, so `l.length + 1` fuel always suffices. -/
def chunksExact (n : Nat) (l : List α) : List (List α) :=
  chunksExactAux n (l.length + 1) l

/-- Fuel-driven worker for `listChunks`. -/
def listChunksAux (n : Nat) : Nat → List α → List (List α)
  | 0, _ => []
  | fuel + 1, l =>
    match l with
    | [] => []
    | a :: rest =>
      if n = 0 then []
      else (a :: rest).take n :: listChunksAux n fuel ((a :: rest).drop n)

/-- Rust `slice::chunks n` (n > 0): all chunks, the last one possibly short. -/
def listChunks (n : Nat) (l : List α) : List (List α) :=
  listChunksAux n (l.length + 1) l

/-- `chunks_exact 4` reinterpreted as little-endian u32s. -/
def le_u32s (l : List Nat) : List Nat := (chunksExact 4 l).map fromLE

/-- Code points of a string literal, used for names and path segments. -/
def strCodes (s : String) : List Nat := s.data.map Char.toNat

/-- Tail-recursive list length with a forced accumulator; evaluates in
constant stack space, unlike `List.length`.  Used only to compute fuel for
the fuel-driven loops (see `tlen_eq`). -/
def tlen : List α → Nat → Nat
  | [], acc => acc
  | _ :: t, 0 => tlen t 1
  | _ :: t, acc + 1 => tlen t (acc + 2)

/-- ASCII lowercasing of a code point.  The source uses Rust's full Unicode
`to_lowercase`; the two agree on all ASCII strings, and the four stream-name
constants compared against in `encryption/mod.rs` are ASCII. -/
def to_lower (c : Nat) : Nat := if 65 ≤ c ∧ c ≤ 90 then c + 32 else c

/-! ## Errors (`src/src/error.rs`) -/

/-- `HeaderErrorType`.  Diagnostic detail strings are dropped; the `&'static str`
field-name tag of `Parsing` is kept. -/
inductive HeaderErrorType where
  | wrongMagicBytes (found : List Nat)
  | notEnoughBytes (expected actual : Nat)
  | parsing (field : String)
deriving DecidableEq, Repr

/-- `Error`.  `oleUnexpectedEof` keeps the sector number that the source formats
into its message; other message strings are dropped. -/
inductive Error where
  | oleInvalidHeader (e : HeaderErrorType)
  | currentlyUnimplemented
  | oleInvalidDirectoryEntry (field : String)
  | oleUnknownOrUnallocatedDirectoryEntry
  | oleDirectoryEntryNotFound
  | oleUnexpectedEof (sector : Nat)
  | stdIo
  | fromUtf16
deriving DecidableEq, Repr

/-- Outcome of running a piece of Rust code: an `Ok` value, an `Err` value, or a
panic / infinite loop (`.crash`). -/
inductive Res (α : Type) where
  | ok (a : α)
  | err (e : Error)
  | crash
deriving DecidableEq, Repr

def Res.bind {α β : Type} (x : Res α) (g : α → Res β) : Res β :=
  match x with
  | .ok a => g a
  | .err e => .err e
  | .crash => .crash

def Res.map {α β : Type} (g : α → β) (x : Res α) : Res β :=
  match x with
  | .ok a => .ok (g a)
  | .err e => .err e
  | .crash => .crash

/-! ## Header (`src/src/header.rs`) -/

/-- `RawFileHeader`: the validated raw byte fields of the 512-byte header. -/
structure RawFileHeader where
  minor_version : List Nat
  major_version : List Nat
  sector_size : List Nat
  mini_sector_size : List Nat
  directory_sectors_len : List Nat
  sector_allocation_table_len : List Nat
  sector_allocation_table_first_sector : List Nat
  standard_stream_min_size : List Nat
  short_sector_allocation_table_first_sector : List Nat
  short_sector_allocation_table_len : List Nat
  master_sector_allocation_table_first_sector : List Nat
  master_sector_allocation_table_len : List Nat
  sector_allocation_table_head : List Nat
deriving DecidableEq, Repr

/-- `OleHeader`. -/
structure OleHeader where
  major_version : Nat
  minor_version : Nat
  sector_size : Nat
  mini_sector_size : Nat
  directory_sectors_len : Nat
  standard_stream_min_size : Nat
  sector_allocation_table_first_sector : Nat
  sector_allocation_table_len : Nat
  short_sector_allocation_table_first_sector : Nat
  short_sector_allocation_table_len : Nat
  master_sector_allocation_table_first_sector : Nat
  master_sector_allocation_table_len : Nat
  sector_allocation_table_head : List Nat
deriving DecidableEq, Repr

/-- The `&header[a..b]` slices of `parse_raw_header`. -/
def hslice (header : List Nat) (a b : Nat) : List Nat := (header.drop a).take (b - a)

/-- The validation cascade of `parse_raw_header` over the 512-byte header
buffer, in source order; diagnostic details of the `Parsing` errors are
dropped. -/
def parse_raw_header_body (header : List Nat) : Res RawFileHeader :=
  if hslice header 0 8 ≠ MAGIC_BYTES then
    .err (.oleInvalidHeader (.wrongMagicBytes (hslice header 0 8)))
  else if hslice header 8 24 ≠ List.replicate 16 0 then
    .err (.oleInvalidHeader (.parsing "class_identifier"))
  else if hslice header 24 26 ≠ [0x3E, 0] then
    .err (.oleInvalidHeader (.parsing "minor_version"))
  else if hslice header 26 28 ≠ [3, 0] ∧ hslice header 26 28 ≠ [4, 0] then
    .err (.oleInvalidHeader (.parsing "major_version"))
  else if hslice header 28 30 ≠ [0xFE, 0xFF] then
    .err (.oleInvalidHeader (.parsing "byte_order_identifier"))
  else if ¬ ((hslice header 26 28 = [3, 0] ∧ hslice header 30 32 = [9, 0]) ∨
             (hslice header 26 28 = [4, 0] ∧ hslice header 30 32 = [0x0C, 0])) then
    .err (.oleInvalidHeader (.parsing "sector_size"))
  else if hslice header 32 34 ≠ [6, 0] then
    .err (.oleInvalidHeader (.parsing "mini_sector_size"))
  else if hslice header 34 40 ≠ List.replicate 6 0 then
    .err (.oleInvalidHeader (.parsing "first_reserved"))
  else if hslice header 40 44 ≠ List.replicate 4 0 ∧ hslice header 26 28 = [3, 0] then
    .err (.oleInvalidHeader (.parsing "directory_sectors_len"))
  else if hslice header 56 60 ≠ [0, 0x10, 0, 0] then
    .err (.oleInvalidHeader (.parsing "standard_stream_min_size"))
  else
    .ok { minor_version := hslice header 24 26
          major_version := hslice header 26 28
          sector_size := hslice header 30 32
          mini_sector_size := hslice header 32 34
          directory_sectors_len := hslice header 40 44
          sector_allocation_table_len := hslice header 44 48
          sector_allocation_table_first_sector := hslice header 48 52
          standard_stream_min_size := hslice header 56 60
          short_sector_allocation_table_first_sector := hslice header 60 64
          short_sector_allocation_table_len := hslice header 64 68
          master_sector_allocation_table_first_sector := hslice header 68 72
          master_sector_allocation_table_len := hslice header 72 76
          sector_allocation_table_head := le_u32s (hslice header 76 512) }

/-- `parse_raw_header`: reads and validates the first 512 bytes of the input.
A single `read` into the 512-byte buffer is modelled as delivering
`(input.take 512).length` (that is, `min 512 input.length`) bytes: the bytes
actually read from the file. -/
def parse_raw_header (input : List Nat) : Res RawFileHeader :=
  if (input.take HEADER_LENGTH).length ≠ HEADER_LENGTH then
    .err (.oleInvalidHeader
      (.notEnoughBytes HEADER_LENGTH (input.take HEADER_LENGTH).length))
  else parse_raw_header_body (input.take HEADER_LENGTH)

/-- `OleHeader::from_raw`.  The `2 ^ shift` powers are `2u16.pow`; overflow is
unreachable because `parse_raw_header` only lets shifts 9, 12 and 6 through. -/
def OleHeader.from_raw (raw : RawFileHeader) : OleHeader :=
  { major_version := fromLE raw.major_version
    minor_version := fromLE raw.minor_version
    sector_size := 2 ^ fromLE raw.sector_size
    mini_sector_size := 2 ^ fromLE raw.mini_sector_size
    directory_sectors_len := fromLE raw.directory_sectors_len
    standard_stream_min_size := fromLE raw.standard_stream_min_size
    sector_allocation_table_first_sector := fromLE raw.sector_allocation_table_first_sector
    sector_allocation_table_len := fromLE raw.sector_allocation_table_len
    short_sector_allocation_table_first_sector :=
      fromLE raw.short_sector_allocation_table_first_sector
    short_sector_allocation_table_len := fromLE raw.short_sector_allocation_table_len
    master_sector_allocation_table_first_sector :=
      fromLE raw.master_sector_allocation_table_first_sector
    master_sector_allocation_table_len := fromLE raw.master_sector_allocation_table_len
    sector_allocation_table_head := raw.sector_allocation_table_head }

/-! ## Directory entries (`src/common/src/directory.rs`) -/

inductive ObjectType where
  | storage
  | stream
  | rootStorage
deriving DecidableEq, Repr

inductive NodeColor where
  | red
  | black
deriving DecidableEq, Repr

/-- `DirectoryEntryRaw`: the thirteen byte-array fields of a 128-byte slab. -/
structure DirectoryEntryRaw where
  name : List Nat
  name_len : List Nat
  object_type : List Nat
  color_flag : List Nat
  left_sibling_id : List Nat
  right_sibling_id : List Nat
  child_id : List Nat
  class_id : List Nat
  state_bits : List Nat
  creation_time : List Nat
  modification_time : List Nat
  starting_sector_location : List Nat
  stream_size : List Nat
deriving DecidableEq, Repr

/-- `DirectoryEntryRaw::parse`.  The source slices `u[0..64] .. u[120..128]`
with index ranges; on a chunk shorter than 128 bytes the slicing itself panics,
so the `try_into` error branches (which only fire on a length mismatch of an
exact-range slice) are unreachable. -/
def DirectoryEntryRaw.parse (u : List Nat) : Res DirectoryEntryRaw :=
  if u.length < SIZE_OF_DIRECTORY_ENTRY then .crash
  else
    .ok { name := u.take 64
          name_len := (u.drop 64).take 2
          object_type := (u.drop 66).take 1
          color_flag := (u.drop 67).take 1
          left_sibling_id := (u.drop 68).take 4
          right_sibling_id := (u.drop 72).take 4
          child_id := (u.drop 76).take 4
          class_id := (u.drop 80).take 16
          state_bits := (u.drop 96).take 4
          creation_time := (u.drop 100).take 8
          modification_time := (u.drop 108).take 8
          starting_sector_location := (u.drop 116).take 4
          stream_size := (u.drop 120).take 8 }

/-- `DirectoryEntry`.  `name` is the decoded Rust `String` as a list of Unicode
scalar values; `class_id` keeps the raw 16 GUID bytes (the source formats them
as an upper-case hex string, a bijection on 16-byte arrays); the two timestamps
keep the raw FILETIME tick count (the source converts nonzero ticks with
`epochs::windows_file`; no claim depends on the calendar rendering). -/
structure DirectoryEntry where
  index : Nat
  object_type : ObjectType
  name : List Nat
  color : NodeColor
  left_sibling_id : Option Nat
  right_sibling_id : Option Nat
  child_id : Option Nat
  class_id : Option (List Nat)
  state_bits : List Nat
  creation_time : Option Nat
  modification_time : Option Nat
  starting_sector_location : Option Nat
  stream_size : Nat
deriving DecidableEq, Repr

/-- Object-type dispatch at the top of `DirectoryEntry::from_raw`, in source
match order. -/
def decode_object_type (bs : List Nat) : Res ObjectType :=
  if bs = [0] then .err .oleUnknownOrUnallocatedDirectoryEntry
  else if bs = [5] then .ok .rootStorage
  else if bs = [1] then .ok .storage
  else if bs = [2] then .ok .stream
  else .err (.oleInvalidDirectoryEntry "object_type")

/-- The `chunks(2)` + `u16::from_le_bytes([pair[0], pair[1]])` step of the name
decode.  On an odd-length slice the last chunk has one element and `pair[1]`
panics. -/
def pairs_to_u16 : List Nat → Res (List Nat)
  | [] => .ok []
  | [_] => .crash
  | a :: b :: rest => Res.map (fun t => (a + 256 * b) :: t) (pairs_to_u16 rest)

/-- `String::from_utf16`: combines surrogate pairs, fails on a lone surrogate. -/
def utf16_decode : List Nat → Res (List Nat)
  | [] => .ok []
  | u :: rest =>
    if u < 0xD800 ∨ 0xDFFF < u then
      Res.map (fun t => u :: t) (utf16_decode rest)
    else if u ≤ 0xDBFF then
      match rest with
      | [] => .err .fromUtf16
      | v :: rest2 =>
        if 0xDC00 ≤ v ∧ v ≤ 0xDFFF then
          Res.map (fun t => (0x10000 + (u - 0xD800) * 0x400 + (v - 0xDC00)) :: t)
            (utf16_decode rest2)
        else .err .fromUtf16
    else .err .fromUtf16

/-- Name decoding inside `DirectoryEntry::from_raw`:
`&raw.name[0..name_len]` (panics when `name_len` exceeds the 64-byte field),
`chunks(2)` to u16 code units, `String::from_utf16`, then `name.pop()` which
drops the final scalar value (the terminating null on well-formed names). -/
def decode_name (raw : DirectoryEntryRaw) : Res (List Nat) :=
  let name_len := fromLE raw.name_len
  if raw.name.length < name_len then .crash
  else
    Res.bind (pairs_to_u16 (raw.name.take name_len)) fun units =>
    Res.bind (utf16_decode units) fun s =>
    .ok s.dropLast

/-- Colour flag decode, in source match order. -/
def decode_color (bs : List Nat) : Res NodeColor :=
  if bs = [0] then .ok .red
  else if bs = [1] then .ok .black
  else .err (.oleInvalidDirectoryEntry "node_color")

/-- Sibling/child stream-id decode: `NOSTREAM` bytes give `None`; any other
value must be at most `MAXREGSID`. -/
def decode_sid (bs : List Nat) (field : String) : Res (Option Nat) :=
  if bs = NO_STREAM then .ok none
  else
    let v := fromLE bs
    if v > MAX_REG_STREAM_ID_VALUE then .err (.oleInvalidDirectoryEntry field)
    else .ok (some v)

/-- FILETIME decode: zero means absent, otherwise the raw tick count is kept
(see the `DirectoryEntry` field comment). -/
def decode_time (bs : List Nat) : Option Nat :=
  if fromLE bs = 0 then none else some (fromLE bs)

/-- The stream-size decode of `DirectoryEntry::from_raw`: for a version-3
header the four most significant bytes are overwritten with zero before the
u64 little-endian decode. -/
def decode_stream_size (hdr : OleHeader) (bs : List Nat) : Nat :=
  if hdr.major_version = MAJOR_VERSION_3_VALUE then fromLE (bs.take 4 ++ [0, 0, 0, 0])
  else fromLE bs

/-- `DirectoryEntry::from_raw`, with the source's field order and error order. -/
def DirectoryEntry.from_raw (hdr : OleHeader) (raw : DirectoryEntryRaw) (index : Nat) :
    Res DirectoryEntry :=
  Res.bind (decode_object_type raw.object_type) fun object_type =>
  Res.bind (decode_name raw) fun name =>
  Res.bind (decode_color raw.color_flag) fun color =>
  Res.bind (decode_sid raw.left_sibling_id "left_sibling_id") fun left_sibling_id =>
  Res.bind (decode_sid raw.right_sibling_id "right_sibling_id") fun right_sibling_id =>
  Res.bind (decode_sid raw.child_id "child_id") fun child_id =>
  let creation_time := decode_time raw.creation_time
  let modification_time := decode_time raw.modification_time
  let starting_sector_location :=
    match object_type with
    | .storage => none
    | _ => some (fromLE raw.starting_sector_location)
  let stream_size := decode_stream_size hdr raw.stream_size
  if stream_size ≠ 0 ∧ object_type = .storage then
    .err (.oleInvalidDirectoryEntry "stream_size")
  else if object_type = .rootStorage ∧ stream_size % 64 ≠ 0 then
    .err (.oleInvalidDirectoryEntry "stream_size")
  else
    let class_id := if raw.class_id = List.replicate 16 0 then none else some raw.class_id
    .ok { index := index
          object_type := object_type
          name := name
          color := color
          left_sibling_id := left_sibling_id
          right_sibling_id := right_sibling_id
          child_id := child_id
          class_id := class_id
          state_bits := raw.state_bits
          creation_time := creation_time
          modification_time := modification_time
          starting_sector_location := starting_sector_location
          stream_size := stream_size }

/-! ## The file object (`src/src/lib.rs`) -/

/-- `OleFileType` (`src/common/src/ftype.rs`). -/
inductive OleFileType where
  | word97
  | word6
  | excel97
  | excel5
  | powerpoint97
  | generic
deriving DecidableEq, Repr

/-- `OleFile`. -/
structure OleFile where
  header : OleHeader
  sectors : List (List Nat)
  sector_allocation_table : List Nat
  short_sector_allocation_table : List Nat
  directory_stream_data : List Nat
  directory_entries : List DirectoryEntry
  mini_stream : List (List Nat)
  file_type : OleFileType
  encrypted : Bool
deriving DecidableEq, Repr

/-- The sector-reading loop of `OleFile::parse`.  A file read delivers
`min remaining sector_size` bytes: a full buffer is pushed as the next sector,
a positive short read is fatal (`OleUnexpectedEof`, carrying `sectors.len()`),
a zero read ends the loop.  `count` is the number of sectors read so far.
When `sector_size = 0` the Rust loop would push empty sectors forever
(`read` reports 0 = the buffer size), reached only at fuel 0 (`.crash`); this
is unreachable from `parse` because the header validation forces 512 or 4096.
Each step consumes `sector_size ≥ 1` bytes, so `body.length + 1` fuel (what
`parse_sectors` passes) always suffices. -/
def load_sectors (sector_size : Nat) : Nat → List Nat → Nat → Res (List (List Nat))
  | 0, _, _ => .crash
  | fuel + 1, body, count =>
    match body with
    | [] => .ok []
    | b :: tl =>
      if ((b :: tl).take sector_size).length = sector_size ∧ 0 < sector_size then
        Res.map (fun rest => (b :: tl).take sector_size :: rest)
          (load_sectors sector_size fuel ((b :: tl).drop sector_size) (count + 1))
      else if 0 < sector_size then .err (.oleUnexpectedEof count)
      else .crash

/-- The DIFAT loop of `initialize_sector_allocation_table`: walk the 109
header-inline entries, stop at the first `UNALLOCATED`/`CHAIN_END` sentinel,
append each referenced sector reinterpreted as little-endian u32s.  An
out-of-range sector index panics. -/
def build_sat (sectors : List (List Nat)) : List Nat → Res (List Nat)
  | [] => .ok []
  | sector_index :: rest =>
    if sector_index = UNALLOCATED_SECTOR ∨ sector_index = CHAIN_END then .ok []
    else
      match sectors[sector_index]? with
      | none => .crash
      | some sec => Res.map (fun tail => le_u32s sec ++ tail) (build_sat sectors rest)

/-- `OleFile::initialize_sector_allocation_table`.  Note the source builds the
FAT first and only then rejects a nonzero MSAT length. -/
def init_sector_allocation_table (f : OleFile) : Res OleFile :=
  match build_sat f.sectors f.header.sector_allocation_table_head with
  | .crash => .crash
  | .err e => .err e
  | .ok sat =>
    if 0 < f.header.master_sector_allocation_table_len then .err .currentlyUnimplemented
    else .ok { f with sector_allocation_table := sat }

/-- A `loop { if next == CHAIN_END break; extend blocks[next]; next = table[next] }`
chain walk (used for the mini-FAT sectors and the mini stream).  Either index
going out of bounds panics; running out of fuel models the infinite loop a
cyclic chain causes. -/
def walk_chain (table : List Nat) (blocks : List (List Nat)) :
    Nat → Nat → Res (List Nat)
  | 0, _ => .crash
  | fuel + 1, next_index =>
    if next_index = CHAIN_END then .ok []
    else
      match blocks[next_index]? with
      | none => .crash
      | some blk =>
        match table[next_index]? with
        | none => .crash
        | some nxt => Res.map (fun rest => blk ++ rest) (walk_chain table blocks fuel nxt)

/-- `OleFile::initialize_short_sector_allocation_table`. -/
def init_short_sector_allocation_table (f : OleFile) : Res OleFile :=
  if f.header.short_sector_allocation_table_len = 0 ∨
     f.header.short_sector_allocation_table_first_sector = CHAIN_END then .ok f
  else
    match walk_chain f.sector_allocation_table f.sectors (f.sectors.length + 1)
        f.header.short_sector_allocation_table_first_sector with
    | .crash => .crash
    | .err e => .err e
    | .ok raw => .ok { f with short_sector_allocation_table := le_u32s raw }

/-- The directory-chain walk of `initialize_directory_stream`: the first sector
is read unconditionally (even a `CHAIN_END` start is indexed, panicking), and
the FAT successor is looked up before the `CHAIN_END` test. -/
def dir_walk (table : List Nat) (blocks : List (List Nat)) :
    Nat → Nat → Res (List Nat)
  | 0, _ => .crash
  | fuel + 1, idx =>
    match blocks[idx]? with
    | none => .crash
    | some blk =>
      match table[idx]? with
      | none => .crash
      | some nxt =>
        if nxt = CHAIN_END then .ok blk
        else Res.map (fun rest => blk ++ rest) (dir_walk table blocks fuel nxt)

/-- The slab loop of `initialize_directory_entries`: unallocated slabs are
skipped, any other `from_raw` failure aborts; `index` is the slab index in the
directory stream (kept even for skipped slabs). -/
def build_dir_entries (hdr : OleHeader) : List (List Nat) → Nat → Res (List DirectoryEntry)
  | [], _ => .ok []
  | chunk :: rest, index =>
    match DirectoryEntryRaw.parse chunk with
    | .crash => .crash
    | .err e => .err e
    | .ok raw =>
      match DirectoryEntry.from_raw hdr raw index with
      | .ok de => Res.map (fun l => de :: l) (build_dir_entries hdr rest (index + 1))
      | .err .oleUnknownOrUnallocatedDirectoryEntry => build_dir_entries hdr rest (index + 1)
      | .err e => .err e
      | .crash => .crash

/-- `OleFile::initialize_directory_entries`. -/
def init_directory_entries (f : OleFile) : Res OleFile :=
  if f.directory_stream_data.length % SIZE_OF_DIRECTORY_ENTRY ≠ 0 then
    .err (.oleInvalidDirectoryEntry "directory_stream_size")
  else
    match build_dir_entries f.header
        (listChunks SIZE_OF_DIRECTORY_ENTRY f.directory_stream_data) 0 with
    | .crash => .crash
    | .err e => .err e
    | .ok entries => .ok { f with directory_entries := entries }

/-- `OleFile::initialize_directory_stream`: walk the FAT from the header's
`sector_allocation_table_first_sector` field (which this implementation uses as
the first directory sector), then decode the slabs. -/
def init_directory_stream (f : OleFile) : Res OleFile :=
  match dir_walk f.sector_allocation_table f.sectors (f.sectors.length + 1)
      f.header.sector_allocation_table_first_sector with
  | .crash => .crash
  | .err e => .err e
  | .ok data => init_directory_entries { f with directory_stream_data := data }

/-- `OleFile::initialize_mini_stream`: `directory_entries[0]` panics when the
entry array is empty; otherwise walk the FAT from the root entry's starting
sector, truncate to its `stream_size` and cut into 64-byte tiles. -/
def init_mini_stream (f : OleFile) : Res OleFile :=
  match f.directory_entries[0]? with
  | none => .crash
  | some root_entry =>
    match root_entry.starting_sector_location with
    | none => .ok f
    | some start =>
      match walk_chain f.sector_allocation_table f.sectors (f.sectors.length + 1) start with
      | .crash => .crash
      | .err e => .err e
      | .ok raw =>
        .ok { f with mini_stream := chunksExact 64 (raw.take root_entry.stream_size) }

/-- `OleFile::root`: `&self.directory_entries[0]`, panicking on an empty array. -/
def OleFile.root (f : OleFile) : Res DirectoryEntry :=
  match f.directory_entries[0]? with
  | some e => .ok e
  | none => .crash

/-- `OleFile::list_object`: names of the entries of one object type, in index
order. -/
def OleFile.list_object (f : OleFile) (t : ObjectType) : List (List Nat) :=
  (f.directory_entries.filter (fun e => e.object_type == t)).map (·.name)

def OleFile.list_streams (f : OleFile) : List (List Nat) :=
  f.list_object .stream

def OleFile.list_storage (f : OleFile) : List (List Nat) :=
  f.list_object .storage

/-- The `entries_to_search` lookups of `find_stream`: `get(id).unwrap()`
panics when a sibling/child id is out of bounds. -/
def sib_lookup (f : OleFile) (id? : Option Nat) (is_child : Bool) :
    Res (List (DirectoryEntry × Bool)) :=
  match id? with
  | none => .ok []
  | some i =>
    match f.directory_entries[i]? with
    | some e => .ok [(e, is_child)]
    | none => .crash

/-- `entries_to_search`, in source order: child first, then left and right
siblings. -/
def collect_entries (f : OleFile) (p : DirectoryEntry) :
    Res (List (DirectoryEntry × Bool)) :=
  Res.bind (sib_lookup f p.child_id true) fun c =>
  Res.bind (sib_lookup f p.left_sibling_id false) fun l =>
  Res.bind (sib_lookup f p.right_sibling_id false) fun r =>
  .ok (c ++ l ++ r)

/-- The `for (entry, is_child) in entries_to_search` loop body of
`find_stream`, parametrized by the recursive call `rec` (which `find_stream`
instantiates with itself at one fuel less). -/
def search_entries (first_entry : List Nat) (remainder stream_path : List (List Nat))
    (rec : List (List Nat) → Option DirectoryEntry → Res (Option DirectoryEntry)) :
    List (DirectoryEntry × Bool) → Res (Option DirectoryEntry)
  | [] => .ok none
  | (entry, is_child) :: rest =>
    if entry.name == first_entry then
      if remainder.isEmpty then .ok (some entry)
      else if is_child then rec remainder (some entry)
      else rec stream_path (some entry)
    else
      match rec stream_path (some entry) with
      | .ok (some found) => .ok (some found)
      | .ok none => search_entries first_entry remainder stream_path rec rest
      | other => other

/-- `OleFile::find_stream`.  `fuel` bounds the recursion depth; `.crash` at
fuel 0 models the unbounded recursion a cyclic sibling/child graph causes.
`stream_path[0]` is evaluated before the `is_empty` check, so an empty path
always panics (the `is_empty` early return in the source is dead code). -/
def OleFile.find_stream (f : OleFile) : Nat → List (List Nat) → Option DirectoryEntry →
    Res (Option DirectoryEntry)
  | 0, _, _ => .crash
  | fuel + 1, stream_path, parent =>
    match stream_path with
    | [] => .crash
    | first_entry :: remainder =>
      match parent with
      | some p =>
        match collect_entries f p with
        | .crash => .crash
        | .err e => .err e
        | .ok entries_to_search =>
          search_entries first_entry remainder (first_entry :: remainder)
            (fun sp par => f.find_stream fuel sp par) entries_to_search
      | none =>
        match f.directory_entries.find? (fun entry => entry.name == first_entry) with
        | some found =>
          if remainder.isEmpty then .ok (some found)
          else f.find_stream fuel remainder (some found)
        | none => .ok none

/-- The per-sector inner byte loop of `open_stream`: push bytes one at a time,
stopping as soon as the running total `collected` reaches `size`.  Note that
once `collected` has gone past `size` the equality test never fires again and
whole blocks are emitted. -/
def collect_bytes (blk : List Nat) (collected size : Nat) : List Nat :=
  match blk with
  | [] => []
  | b :: rest =>
    b :: (if collected + 1 = size then [] else collect_bytes rest (collected + 1) size)

/-- The chain-walking read loop of `open_stream` (identical shape for the
mini-FAT and FAT branches): walk `table` from the current sector, emitting
bytes of `blocks[sector]` via `collect_bytes`, until `CHAIN_END`. -/
def read_stream_loop (table : List Nat) (blocks : List (List Nat)) (size : Nat) :
    Nat → Nat → Nat → Res (List Nat)
  | 0, _, _ => .crash
  | fuel + 1, next_sector, collected =>
    if next_sector = CHAIN_END then .ok []
    else
      match blocks[next_sector]? with
      | none => .crash
      | some blk =>
        let sector_data := collect_bytes blk collected size
        match table[next_sector]? with
        | none => .crash
        | some nxt =>
          Res.map (fun rest => sector_data ++ rest)
            (read_stream_loop table blocks size fuel nxt (collected + sector_data.length))

/-- `OleFile::open_stream`: resolve the path, require a Stream entry, then read
via the mini-FAT/mini-stream when `stream_size` is under the cutoff and via the
FAT/sectors otherwise.  The `starting_sector_location.unwrap()` cannot fail for
a Stream entry (`from_raw` only withholds it for Storage). -/
def OleFile.open_stream (f : OleFile) (stream_path : List (List Nat)) (fuel : Nat) :
    Res (List Nat) :=
  match f.find_stream fuel stream_path none with
  | .crash => .crash
  | .err e => .err e
  | .ok none => .err .oleDirectoryEntryNotFound
  | .ok (some directory_entry) =>
    if directory_entry.object_type = .stream then
      match directory_entry.starting_sector_location with
      | none => .crash
      | some start =>
        if directory_entry.stream_size < f.header.standard_stream_min_size then
          read_stream_loop f.short_sector_allocation_table f.mini_stream
            directory_entry.stream_size fuel start 0
        else
          read_stream_loop f.sector_allocation_table f.sectors
            directory_entry.stream_size fuel start 0
    else .err .oleDirectoryEntryNotFound

/-! ## File type and encryption detection (the tail of `parse`) -/

/-- `ftype::file_type`: look the root entry's class GUID up in the five-entry
map.  The source compares formatted GUID strings; since the formatting is a
bijection on 16-byte arrays, the lookup is modelled on the raw bytes: each
pattern below is the little-endian byte layout of the corresponding GUID string
key (first three groups little-endian, last two groups raw). -/
def file_type_of (root : DirectoryEntry) : OleFileType :=
  match root.class_id with
  | none => .generic
  | some bytes =>
    -- "00020906-0000-0000-C000-000000000046"
    if bytes = [0x06, 0x09, 0x02, 0, 0, 0, 0, 0, 0xC0, 0, 0, 0, 0, 0, 0, 0x46] then .word97
    -- "00020900-0000-0000-C000-000000000046"
    else if bytes = [0, 0x09, 0x02, 0, 0, 0, 0, 0, 0xC0, 0, 0, 0, 0, 0, 0, 0x46] then .word6
    -- "00020820-0000-0000-C000-000000000046"
    else if bytes = [0x20, 0x08, 0x02, 0, 0, 0, 0, 0, 0xC0, 0, 0, 0, 0, 0, 0, 0x46] then .excel97
    -- "00020810-0000-0000-C000-000000000046"
    else if bytes = [0x10, 0x08, 0x02, 0, 0, 0, 0, 0, 0xC0, 0, 0, 0, 0, 0, 0, 0x46] then .excel5
    -- "64818D10-4F9B-11CF-86EA-00AA00B929E8"
    else if bytes = [0x10, 0x8D, 0x81, 0x64, 0x9B, 0x4F, 0xCF, 0x11,
                     0x86, 0xEA, 0, 0xAA, 0, 0xB9, 0x29, 0xE8] then .powerpoint97
    else .generic

/-- A fuel that strictly dominates every terminating walk inside the
encryption handlers: a terminating `find_stream` recursion on a single-segment
path visits at most `2 * (entries + 1) + 1` distinct (suffix, parent) states
(a repeated state on a branch is an infinite loop), and a terminating
chain walk visits each sector or mini-sector at most once. -/
def enough_fuel (f : OleFile) : Nat :=
  2 * (f.directory_entries.length + 1) + f.sectors.length + f.mini_stream.length +
    f.sector_allocation_table.length + f.short_sector_allocation_table.length + 3

/-- `WordEncryptionHandler::is_encrypted`: open the stream (`expect` panics on
failure), take 32 bytes, unpack the FIB (`expect` panics when fewer than 32
bytes are available), and return `f_encrypted` — bit 0 of the `first_flags`
u16 at byte offset 10. -/
def word_is_encrypted (f : OleFile) (stream_name : List Nat) : Res Bool :=
  match f.open_stream [stream_name] (enough_fuel f) with
  | .ok stream =>
    let bytes := stream.take 32
    if bytes.length < 32 then .crash
    else .ok (bytes.getD 10 0 % 2 == 1)
  | _ => .crash

/-- `BIFFSTream::skip_to` from position `pos`: find the first record with the
target number.  `next()` returns `None` as soon as `pos + 4 ≥ len`; building a
record's data slice panics when `pos + 4 + size` exceeds the stream length
(this happens before the predicate is tested).  Every step advances `pos` by
at least 4, so the `data.length + 1` fuel the caller passes always suffices
(the scan never diverges in the source). -/
def biff_skip_to (data : List Nat) (target : Nat) : Nat → Nat → Res (Option (List Nat))
  | 0, _ => .crash
  | fuel + 1, pos =>
    if data.length ≤ pos + 4 then .ok none
    else
      let num := fromLE ((data.drop pos).take 2)
      let size := fromLE ((data.drop (pos + 2)).take 2)
      let e := pos + 4 + size
      if data.length < e then .crash
      else if num = target then .ok (some ((data.drop (pos + 4)).take size))
      else biff_skip_to data target fuel e

/-- `ExcelEncryptionHandler::is_encrypted`: open the workbook stream (`expect`
panics on failure), demand a first record (`expect`) which must be `BOF`
(`assert_eq`), then scan for a `FilePass` record (num 47): its first two data
bytes `01 00` mean RC4 encryption; slicing them panics when the record data is
shorter than 2 bytes. -/
def excel_is_encrypted (f : OleFile) (stream_name : List Nat) : Res Bool :=
  match f.open_stream [stream_name] (enough_fuel f) with
  | .ok wb =>
    if wb.length ≤ 4 then .crash
    else
      let num0 := fromLE (wb.take 2)
      let size0 := fromLE ((wb.drop 2).take 2)
      if wb.length < 4 + size0 then .crash
      else if num0 ≠ 2057 then .crash
      else
        match biff_skip_to wb 47 (wb.length + 1) 0 with
        | .crash => .crash
        | .err e => .err e
        | .ok none => .ok false
        | .ok (some payload) =>
          if payload.length < 2 then .crash
          else .ok (payload.take 2 == [1, 0])
  | _ => .crash

/-- `encryption::is_encrypted`: dispatch on the first listed stream whose
lowercased name is one of the four known names; the PowerPoint and OOXML
handlers always report false. -/
def is_encrypted_res (f : OleFile) : Res Bool :=
  let streams := f.list_streams
  let is_known := fun (s : List Nat) =>
    let l := s.map to_lower
    l == strCodes "worddocument" || l == strCodes "powerpoint document" ||
      l == strCodes "workbook" || l == strCodes "encryptioninfo"
  match streams.find? is_known with
  | none => .ok false
  | some s =>
    let l := s.map to_lower
    if l == strCodes "worddocument" then word_is_encrypted f s
    else if l == strCodes "powerpoint document" then .ok false
    else if l == strCodes "workbook" then excel_is_encrypted f s
    else .ok false

/-- The body of `OleFile::parse` after the header bytes have been consumed:
read the sectors, then run the table-building steps in source order, ending with the
file-type classification (which reads `root()`) and the encryption probe. -/
def parse_sectors (file_header : OleHeader) (body : List Nat) : Res OleFile :=
  match load_sectors file_header.sector_size (tlen body 0 + 1) body 0 with
  | .crash => .crash
  | .err e => .err e
  | .ok sectors =>
    let f0 : OleFile :=
      { header := file_header
        sectors := sectors
        sector_allocation_table := []
        short_sector_allocation_table := []
        directory_stream_data := []
        directory_entries := []
        mini_stream := []
        file_type := .generic
        encrypted := false }
    Res.bind (init_sector_allocation_table f0) fun f1 =>
    Res.bind (init_short_sector_allocation_table f1) fun f2 =>
    Res.bind (init_directory_stream f2) fun f3 =>
    Res.bind (init_mini_stream f3) fun f4 =>
    Res.bind f4.root fun root_entry =>
    let f5 := { f4 with file_type := file_type_of root_entry }
    Res.bind (is_encrypted_res f5) fun enc =>
    .ok { f5 with encrypted := enc }

/-- `OleFile::parse` from a byte list: parse and validate the header; when the
sector size exceeds 512 the rest of the first sector must be present and all
zero; then read sectors and build the tables. -/
def OleFile.parse (input : List Nat) : Res OleFile :=
  match parse_raw_header input with
  | .crash => .crash
  | .err e => .err e
  | .ok raw =>
    let file_header := OleHeader.from_raw raw
    let sector_size := file_header.sector_size
    if HEADER_LENGTH < sector_size then
      let should_read_size := sector_size - HEADER_LENGTH
      let should_read := (input.drop HEADER_LENGTH).take should_read_size
      if should_read.length ≠ should_read_size then
        .err (.oleInvalidHeader (.notEnoughBytes should_read_size should_read.length))
      else if should_read ≠ List.replicate should_read_size 0 then
        .err (.oleInvalidHeader (.parsing "all bytes must be zero for larger header sizes"))
      else parse_sectors file_header (input.drop sector_size)
    else parse_sectors file_header (input.drop HEADER_LENGTH)

/-! ## Specification-side helpers used in theorem statements -/

/-- `is_chain table nblocks start ch` says that `ch` is the exact sector chain
starting at `start`: consecutive sectors linked by `table`, every sector a real
index (below `nblocks`, not the `CHAIN_END` sentinel), and the last sector's
successor is `CHAIN_END`. -/
def is_chain (table : List Nat) (nblocks : Nat) : Nat → List Nat → Bool
  | _, [] => false
  | start, s :: rest =>
    s == start && s != CHAIN_END && decide (s < nblocks) && decide (s < table.length) &&
      (if rest.isEmpty then table.getD s 0 == CHAIN_END
       else is_chain table nblocks (table.getD s 0) rest)

/-- The allocation table `open_stream` walks for a given entry (the mini-FAT
below the standard-stream cutoff, the FAT otherwise). -/
def stream_table (f : OleFile) (de : DirectoryEntry) : List Nat :=
  if de.stream_size < f.header.standard_stream_min_size then
    f.short_sector_allocation_table
  else f.sector_allocation_table

/-- The block store `open_stream` reads for a given entry (the 64-byte
mini-stream tiles below the cutoff, the full sectors otherwise). -/
def stream_blocks (f : OleFile) (de : DirectoryEntry) : List (List Nat) :=
  if de.stream_size < f.header.standard_stream_min_size then f.mini_stream
  else f.sectors

/-- Modelled from the spec: the DIFAT entries actually used by the FAT builder
— the header-inline entries up to (excluding) the first
unallocated/chain-end sentinel. -/
def head_live (hdr : OleHeader) : List Nat :=
  hdr.sector_allocation_table_head.takeWhile
    (fun i => !(i == UNALLOCATED_SECTOR || i == CHAIN_END))

/-- Modelled from the spec: "the FAT is built only from the 109 header-inline
DIFAT entries, stopping at the first sentinel" — the concatenation of the
referenced sectors, each reinterpreted as little-endian u32s. -/
def spec_fat (f : OleFile) : List Nat :=
  ((head_live f.header).map (fun i => le_u32s (f.sectors.getD i []))).flatten

/-! ## Concrete inputs

Hand-crafted minimal version-3 compound files used for counterexamples and
witnesses.  Layout (sector size 512): header, then sector 0 = the single FAT
sector, sector 1 = the single directory sector (4 slabs), sector 2 = the single
mini-FAT sector, sector 3 = the mini-stream data. -/

/-- A version-3 header: directory chain starting at `sat_first`, mini-FAT of
`ssat_len` sectors starting at `ssat_first`, MSAT length `msat_len`, and the
leading inline DIFAT entries `difat` (the rest unallocated). -/
def mk_header (sat_first ssat_first ssat_len msat_len : Nat) (difat : List Nat) :
    List Nat :=
  MAGIC_BYTES ++ List.replicate 16 0 ++
  [0x3E, 0] ++ [3, 0] ++ [0xFE, 0xFF] ++ [9, 0] ++ [6, 0] ++
  List.replicate 6 0 ++
  u32le 0 ++ u32le 1 ++ u32le sat_first ++ u32le 0 ++ u32le 0x1000 ++
  u32le ssat_first ++ u32le ssat_len ++ u32le CHAIN_END ++ u32le msat_len ++
  (difat.map u32le).flatten ++
  (List.replicate (109 - difat.length) (u32le UNALLOCATED_SECTOR)).flatten

/-- A 128-byte directory slab.  `name` is the leading UTF-16LE bytes of the
64-byte name field, `size_bytes` the 8-byte stream-size field; colour is black,
class id, state bits and timestamps are zero. -/
def mk_slab (name : List Nat) (name_len object_type : Nat)
    (left right child start : List Nat) (size_bytes : List Nat) : List Nat :=
  (name ++ List.replicate (64 - name.length) 0) ++
  [name_len % 256, name_len / 256] ++ [object_type] ++ [1] ++
  left ++ right ++ child ++ List.replicate 16 0 ++ List.replicate 4 0 ++
  List.replicate 8 0 ++ List.replicate 8 0 ++ start ++ size_bytes

/-- UTF-16LE bytes of "Root Entry" plus the terminating null (22 bytes). -/
def root_name_bytes : List Nat :=
  [82, 0, 111, 0, 111, 0, 116, 0, 32, 0, 69, 0, 110, 0, 116, 0, 114, 0, 121, 0, 0, 0]

/-- UTF-16LE bytes of "A" plus the terminating null (4 bytes). -/
def a_name_bytes : List Nat := [65, 0, 0, 0]

/-- The FAT sector: FAT[0] marks the FAT sector itself, FAT[1..3] terminate the
directory, mini-FAT and mini-stream chains; the rest is unallocated. -/
def fat_sector : List Nat :=
  u32le 0xFFFFFFFD ++ u32le CHAIN_END ++ u32le CHAIN_END ++ u32le CHAIN_END ++
  (List.replicate 124 (u32le UNALLOCATED_SECTOR)).flatten

/-- The mini-FAT sector: the chain of mini-sector 0 continues to `e0`,
mini-sector 1 ends its chain; the rest is unallocated. -/
def mk_ssat_sector (e0 : Nat) : List Nat :=
  u32le e0 ++ u32le CHAIN_END ++ (List.replicate 126 (u32le UNALLOCATED_SECTOR)).flatten

/-- Root-storage slab: mini stream of 128 bytes starting at sector 3, no child. -/
def root_slab : List Nat :=
  mk_slab root_name_bytes 22 5 NO_STREAM NO_STREAM NO_STREAM (u32le 3)
    (u32le 128 ++ [0, 0, 0, 0])

/-- Stream slab "A": 64-byte stream starting at mini-sector `start`, with the
given child-id bytes. -/
def mk_a_slab (start : Nat) (child : List Nat) : List Nat :=
  mk_slab a_name_bytes 4 2 NO_STREAM NO_STREAM child (u32le start)
    (u32le 64 ++ [0, 0, 0, 0])

/-- `f1_bytes`: a well-formed file except that the mini-FAT chain of the
64-byte stream "A" has two mini-sectors (`0 → 1 → CHAIN_END`) instead of the
single one its `stream_size` calls for. -/
def f1_bytes : List Nat :=
  mk_header 1 2 1 0 [0] ++ fat_sector ++
  (root_slab ++ mk_a_slab 0 NO_STREAM ++ List.replicate 128 0 ++ List.replicate 128 0) ++
  mk_ssat_sector 1 ++ List.replicate 512 0

/-- `f2_bytes`: like `f1_bytes` but stream "A" starts at mini-sector 5, beyond
the two tiles the mini-stream holds. -/
def f2_bytes : List Nat :=
  mk_header 1 2 1 0 [0] ++ fat_sector ++
  (root_slab ++ mk_a_slab 5 NO_STREAM ++ List.replicate 128 0 ++ List.replicate 128 0) ++
  mk_ssat_sector 1 ++ List.replicate 512 0

/-- `f3_bytes`: slab 0 is unallocated and slab 1 is a stream whose chain ends
immediately, so the first decoded directory entry is not a RootStorage. -/
def f3_bytes : List Nat :=
  mk_header 1 2 1 0 [0] ++ fat_sector ++
  (List.replicate 128 0 ++
    mk_slab a_name_bytes 4 2 NO_STREAM NO_STREAM NO_STREAM (u32le CHAIN_END)
      (u32le 64 ++ [0, 0, 0, 0]) ++
    List.replicate 128 0 ++ List.replicate 128 0) ++
  mk_ssat_sector 1 ++ List.replicate 512 0

/-- `f4_bytes`: like `f1_bytes` but stream "A" carries `child_id = 50`, far
beyond the four directory slabs. -/
def f4_bytes : List Nat :=
  mk_header 1 2 1 0 [0] ++ fat_sector ++
  (root_slab ++ mk_a_slab 0 (u32le 50) ++ List.replicate 128 0 ++ List.replicate 128 0) ++
  mk_ssat_sector 1 ++ List.replicate 512 0

/-- `f5_bytes`: a bare header with `master_sector_allocation_table_len = 1` and
`DIFAT[0] = 9999`, with no sectors following. -/
def f5_bytes : List Nat := mk_header 1 2 1 1 [9999]

/-- A version-3 `OleHeader` as `parse` produces it (fields the slab-level
claims read: major version 3, cutoff 4096). -/
def hdr3 : OleHeader :=
  { major_version := 3
    minor_version := 0x3E
    sector_size := 512
    mini_sector_size := 64
    directory_sectors_len := 0
    standard_stream_min_size := 4096
    sector_allocation_table_first_sector := 0
    sector_allocation_table_len := 0
    short_sector_allocation_table_first_sector := 0
    short_sector_allocation_table_len := 0
    master_sector_allocation_table_first_sector := 0
    master_sector_allocation_table_len := 0
    sector_allocation_table_head := [] }

/-- A version-4 header. -/
def hdr4 : OleHeader := { hdr3 with major_version := 4, sector_size := 4096 }

/-- Slab with `name_len = 66` (exceeds the 64-byte name field). -/
def c4_slab_long : List Nat :=
  mk_slab a_name_bytes 66 2 NO_STREAM NO_STREAM NO_STREAM (u32le 0)
    (List.replicate 8 0)

/-- Slab with `name_len = 3` (not a multiple of 2). -/
def c4_slab_odd : List Nat :=
  mk_slab a_name_bytes 3 2 NO_STREAM NO_STREAM NO_STREAM (u32le 0)
    (List.replicate 8 0)

/-- A well-formed stream slab ("A", zero size). -/
def c4_slab_good : List Nat :=
  mk_slab a_name_bytes 4 2 NO_STREAM NO_STREAM NO_STREAM (u32le 0)
    (List.replicate 8 0)

/-- Stream slab whose 64-bit size field is `1 + 5·2^32`. -/
def c6_slab : List Nat :=
  mk_slab a_name_bytes 4 2 NO_STREAM NO_STREAM NO_STREAM (u32le 0)
    [1, 0, 0, 0, 5, 0, 0, 0]

/-- Storage slab with nonzero stream size and otherwise valid fields. -/
def c7_slab : List Nat :=
  mk_slab a_name_bytes 4 1 NO_STREAM NO_STREAM NO_STREAM (u32le 0)
    [1, 0, 0, 0, 0, 0, 0, 0]

/-- Storage slab with nonzero stream size whose name is a lone UTF-16
surrogate. -/
def c7_slab_utf16 : List Nat :=
  mk_slab [0, 0xD8, 0, 0] 4 1 NO_STREAM NO_STREAM NO_STREAM (u32le 0)
    [1, 0, 0, 0, 0, 0, 0, 0]

/-- A one-entry, one-tile in-memory file object used as the `open_stream`
witness: stream "A" of 10 bytes stored in mini-sector 0, whose mini-FAT chain
ends immediately. -/
def wtest_entry : DirectoryEntry :=
  { index := 0
    object_type := .stream
    name := [65]
    color := .black
    left_sibling_id := none
    right_sibling_id := none
    child_id := none
    class_id := none
    state_bits := [0, 0, 0, 0]
    creation_time := none
    modification_time := none
    starting_sector_location := some 0
    stream_size := 10 }

def wtest_file : OleFile :=
  { header := hdr3
    sectors := []
    sector_allocation_table := []
    short_sector_allocation_table := [CHAIN_END]
    directory_stream_data := []
    directory_entries := [wtest_entry]
    mini_stream := [List.replicate 64 7]
    file_type := .generic
    encrypted := false }

/-- An `OleFile` with no content, used as the fallback of `res_file`. -/
def empty_file : OleFile :=
  { header := hdr3
    sectors := []
    sector_allocation_table := []
    short_sector_allocation_table := []
    directory_stream_data := []
    directory_entries := []
    mini_stream := []
    file_type := .generic
    encrypted := false }

/-- Project a parse result to its file (fallback: `empty_file`), letting
witnesses name the file a concrete input parses to. -/
def res_file (r : Res OleFile) : OleFile :=
  match r with
  | .ok f => f
  | _ => empty_file

def f1_file : OleFile := res_file (OleFile.parse f1_bytes)

/-- A `DirectoryEntryRaw` with no content, used as the fallback of `raw_of`. -/
def empty_raw : DirectoryEntryRaw :=
  { name := [], name_len := [], object_type := [], color_flag := [],
    left_sibling_id := [], right_sibling_id := [], child_id := [], class_id := [],
    state_bits := [], creation_time := [], modification_time := [],
    starting_sector_location := [], stream_size := [] }

/-- Project a slab parse to its raw record (fallback: `empty_raw`). -/
def raw_of (s : List Nat) : DirectoryEntryRaw :=
  match DirectoryEntryRaw.parse s with
  | .ok r => r
  | _ => empty_raw

/-- Project an entry decode to its entry (fallback: `wtest_entry`). -/
def res_entry (r : Res DirectoryEntry) : DirectoryEntry :=
  match r with
  | .ok d => d
  | _ => wtest_entry

def c6_raw : DirectoryEntryRaw := raw_of c6_slab

def c6_entry : DirectoryEntry := res_entry (DirectoryEntry.from_raw hdr3 c6_raw 0)

def c7_raw : DirectoryEntryRaw := raw_of c7_slab

def c7_zero_entry : DirectoryEntry :=
  res_entry (DirectoryEntry.from_raw hdr3 { c7_raw with stream_size := List.replicate 8 0 } 0)

def f1_entry0 : DirectoryEntry := f1_file.directory_entries.getD 0 wtest_entry

def f1_entry1 : DirectoryEntry := f1_file.directory_entries.getD 1 wtest_entry

/-- A stream id is valid when absent or at most `MAXREGSID`. -/
def sid_ok (o : Option Nat) : Bool :=
  match o with
  | none => true
  | some v => decide (v ≤ MAX_REG_STREAM_ID_VALUE)

/-- Whether a `Res` is an `Ok` value. -/
def is_ok {α : Type} (r : Res α) : Bool :=
  match r with
  | .ok _ => true
  | _ => false

/-- A file whose header asks for a nonzero MSAT and whose inline DIFAT is
empty. -/
def c5_wfile : OleFile :=
  { empty_file with header := { hdr3 with master_sector_allocation_table_len := 1 } }

/-! ## Inversion lemmas for `Res` -/

theorem Res.bind_eq_ok {α β : Type} {x : Res α} {g : α → Res β} {b : β} :
    Res.bind x g = .ok b ↔ ∃ a, x = .ok a ∧ g a = .ok b := by
  cases x <;> simp [Res.bind]

theorem Res.map_eq_ok {α β : Type} {g : α → β} {x : Res α} {b : β} :
    Res.map g x = .ok b ↔ ∃ a, x = .ok a ∧ g a = b := by
  cases x <;> simp [Res.map]

theorem Res.map_eq_err {α β : Type} {g : α → β} {x : Res α} {e : Error} :
    Res.map g x = .err e ↔ x = .err e := by
  cases x <;> simp [Res.map]

/-! ## Directory-entry decode lemmas -/

theorem decode_sid_ok {bs : List Nat} {fld : String} {o : Option Nat}
    (h : decode_sid bs fld = .ok o) : sid_ok o = true := by
  unfold decode_sid at h
  split at h
  · cases h
    rfl
  · simp only [] at h
    split at h
    · cases h
    · cases h
      simp only [sid_ok, decide_eq_true_eq]
      omega

/-- Field-level facts `DirectoryEntry::from_raw` establishes about every entry
it lets through. -/
theorem from_raw_ok_inv {hdr : OleHeader} {raw : DirectoryEntryRaw} {i : Nat}
    {de : DirectoryEntry} (h : DirectoryEntry.from_raw hdr raw i = .ok de) :
    de.stream_size = decode_stream_size hdr raw.stream_size ∧
    (de.object_type = .storage →
      de.starting_sector_location = none ∧ de.stream_size = 0) ∧
    (de.object_type = .rootStorage → de.stream_size % 64 = 0) ∧
    sid_ok de.left_sibling_id = true ∧ sid_ok de.right_sibling_id = true ∧
    sid_ok de.child_id = true := by
  unfold DirectoryEntry.from_raw at h
  rw [Res.bind_eq_ok] at h
  obtain ⟨ot, hot, h⟩ := h
  rw [Res.bind_eq_ok] at h
  obtain ⟨nm, hnm, h⟩ := h
  rw [Res.bind_eq_ok] at h
  obtain ⟨col, hcol, h⟩ := h
  rw [Res.bind_eq_ok] at h
  obtain ⟨lsid, hlsid, h⟩ := h
  rw [Res.bind_eq_ok] at h
  obtain ⟨rsid, hrsid, h⟩ := h
  rw [Res.bind_eq_ok] at h
  obtain ⟨cid, hcid, h⟩ := h
  simp only at h
  split at h
  · cases h
  · split at h
    · cases h
    · rename_i hstorage hroot
      cases h
      refine ⟨rfl, ?_, ?_, decode_sid_ok hlsid, decode_sid_ok hrsid, decode_sid_ok hcid⟩
      · intro hot2
        simp only at hot2
        subst hot2
        refine ⟨rfl, ?_⟩
        by_contra hne
        exact hstorage ⟨hne, rfl⟩
      · intro hot2
        simp only at hot2
        subst hot2
        by_contra hne
        exact hroot ⟨rfl, hne⟩

/-! ## Parse-pipeline inversion lemmas -/

/-- Every directory entry the slab loop keeps was produced by a successful
`from_raw`. -/
theorem build_dir_entries_mem {hdr : OleHeader} :
    ∀ (chunks : List (List Nat)) (i : Nat) (l : List DirectoryEntry),
      build_dir_entries hdr chunks i = .ok l →
      ∀ de ∈ l, ∃ raw j, DirectoryEntry.from_raw hdr raw j = .ok de := by
  intro chunks
  induction chunks with
  | nil =>
    intro i l h de hde
    cases h
    simp at hde
  | cons c rest ih =>
    intro i l h de hde
    unfold build_dir_entries at h
    split at h
    · cases h
    · cases h
    · rename_i raw hraw
      split at h
      · rename_i d hd
        rw [Res.map_eq_ok] at h
        obtain ⟨tail, htail, rfl⟩ := h
        rw [List.mem_cons] at hde
        rcases hde with rfl | hde
        · exact ⟨raw, i, hd⟩
        · exact ih (i + 1) tail htail de hde
      · exact ih (i + 1) l h de hde
      · cases h
      · cases h

theorem init_sat_inv {f g : OleFile} (h : init_sector_allocation_table f = .ok g) :
    g.directory_entries = f.directory_entries ∧ g.header = f.header := by
  unfold init_sector_allocation_table at h
  split at h
  · cases h
  · cases h
  · split at h
    · cases h
    · cases h
      exact ⟨rfl, rfl⟩

theorem init_ssat_inv {f g : OleFile}
    (h : init_short_sector_allocation_table f = .ok g) :
    g.directory_entries = f.directory_entries ∧ g.header = f.header := by
  unfold init_short_sector_allocation_table at h
  split at h
  · cases h
    exact ⟨rfl, rfl⟩
  · split at h
    · cases h
    · cases h
    · cases h
      exact ⟨rfl, rfl⟩

theorem init_dir_inv {f g : OleFile} (h : init_directory_stream f = .ok g) :
    g.header = f.header ∧
    ∃ chunks, build_dir_entries f.header chunks 0 = .ok g.directory_entries := by
  unfold init_directory_stream at h
  split at h
  · cases h
  · cases h
  · rename_i data hdata
    unfold init_directory_entries at h
    split at h
    · cases h
    · split at h
      · cases h
      · cases h
      · rename_i entries hentries
        cases h
        exact ⟨rfl, _, hentries⟩

theorem init_mini_inv {f g : OleFile} (h : init_mini_stream f = .ok g) :
    g.directory_entries = f.directory_entries ∧ g.header = f.header ∧
    f.directory_entries ≠ [] := by
  unfold init_mini_stream at h
  split at h
  · cases h
  · rename_i root_entry hroot
    have hne : f.directory_entries ≠ [] := by
      intro hnil
      rw [hnil] at hroot
      simp at hroot
    split at h
    · cases h
      exact ⟨rfl, rfl, hne⟩
    · split at h
      · cases h
      · cases h
      · cases h
        exact ⟨rfl, rfl, hne⟩

/-- A successfully parsed file has a nonempty entry array whose entries all
come from successful `from_raw` decodes. -/
theorem parse_ok_entries {input : List Nat} {f : OleFile}
    (h : OleFile.parse input = .ok f) :
    f.directory_entries ≠ [] ∧
    ∃ hdr, ∀ de ∈ f.directory_entries,
      ∃ raw j, DirectoryEntry.from_raw hdr raw j = .ok de := by
  unfold OleFile.parse at h
  split at h
  · cases h
  · cases h
  · rename_i raw hraw
    have main : ∀ body, parse_sectors (OleHeader.from_raw raw) body = .ok f →
        f.directory_entries ≠ [] ∧
        ∃ hdr, ∀ de ∈ f.directory_entries,
          ∃ raw2 j, DirectoryEntry.from_raw hdr raw2 j = .ok de := by
      intro body hb
      unfold parse_sectors at hb
      split at hb
      · cases hb
      · cases hb
      · rename_i sectors hsec
        rw [Res.bind_eq_ok] at hb
        obtain ⟨f1, hf1, hb⟩ := hb
        rw [Res.bind_eq_ok] at hb
        obtain ⟨f2, hf2, hb⟩ := hb
        rw [Res.bind_eq_ok] at hb
        obtain ⟨f3, hf3, hb⟩ := hb
        rw [Res.bind_eq_ok] at hb
        obtain ⟨f4, hf4, hb⟩ := hb
        rw [Res.bind_eq_ok] at hb
        obtain ⟨root_entry, _, hb⟩ := hb
        rw [Res.bind_eq_ok] at hb
        obtain ⟨enc, _, hb⟩ := hb
        cases hb
        obtain ⟨he4, _⟩ := init_mini_inv hf4
        obtain ⟨hh3, chunks, hchunks⟩ := init_dir_inv hf3
        obtain ⟨he2, hh2⟩ := init_ssat_inv hf2
        obtain ⟨he1, hh1⟩ := init_sat_inv hf1
        constructor
        · simp only [he4]
          rw [(init_mini_inv hf4).1] at he4
          exact (init_mini_inv hf4).2.2
        · refine ⟨f2.header, ?_⟩
          intro de hde
          simp only [he4] at hde
          exact build_dir_entries_mem chunks 0 f3.directory_entries hchunks de hde
    dsimp only at h
    split at h
    · split at h
      · cases h
      · split at h
        · cases h
        · exact main _ h
    · exact main _ h

/-- A `Res` whose constructor is `ok` equals `ok` of its projection. -/
theorem res_file_spec {r : Res OleFile} (h : is_ok r = true) : r = .ok (res_file r) := by
  cases r
  · rfl
  · simp [is_ok] at h
  · simp [is_ok] at h

/-! ## Claim C2 -/

/-- Claim C2 (amended): in every successfully parsed file the directory-entry
array is nonempty (an empty one makes the parse panic), `root()` returns the
entry at index 0, and every decoded RootStorage entry has a stream size
divisible by 64.  (The entry at index 0 is the first allocated slab and need
not be a RootStorage — see the counterexample.) -/
theorem claim_c2_root_entry (input : List Nat) (f : OleFile)
    (h : OleFile.parse input = .ok f) :
    f.directory_entries ≠ [] ∧
    (∀ e, f.directory_entries[0]? = some e → f.root = .ok e) ∧
    (∀ de ∈ f.directory_entries, de.object_type = .rootStorage →
      de.stream_size % 64 = 0) := by
  obtain ⟨hne, hdr, hmem⟩ := parse_ok_entries h
  refine ⟨hne, ?_, ?_⟩
  · intro e he
    unfold OleFile.root
    rw [he]
  · intro de hde hroot
    obtain ⟨raw, j, hok⟩ := hmem de hde
    exact (from_raw_ok_inv hok).2.2.1 hroot

/-- Witness for C2: the crafted file `f1_bytes` parses, its root is the entry
at index 0, and that entry's stream size (128) is divisible by 64. -/
theorem claim_c2_witness :
    f1_file.directory_entries ≠ [] ∧
    f1_file.root = .ok f1_entry0 ∧
    f1_entry0.stream_size % 64 = 0 := by
  have happ := claim_c2_root_entry f1_bytes f1_file (res_file_spec (by decide))
  exact ⟨happ.1, happ.2.1 f1_entry0 (by decide),
    happ.2.2 f1_entry0 (by decide) (by decide)⟩

/-- Counterexample for C2 as stated: `f3_bytes` (first slab unallocated,
second a stream) parses successfully, yet the entry at index 0 is a Stream,
not a RootStorage. -/
theorem claim_c2_counterexample :
    Res.map (fun f => f.directory_entries.map (fun d => d.object_type))
      (OleFile.parse f3_bytes) = .ok [.stream] := by decide

/-! ## Claim C3 -/

/-- Claim C3 (amended): every non-absent sibling/child id of every decoded
entry is at most `MAXREGSID`.  (The strict bound by the number of directory
slabs is not checked by the parser — see the counterexample.) -/
theorem claim_c3_stream_ids (input : List Nat) (f : OleFile)
    (h : OleFile.parse input = .ok f) :
    ∀ de ∈ f.directory_entries,
      sid_ok de.left_sibling_id = true ∧ sid_ok de.right_sibling_id = true ∧
      sid_ok de.child_id = true := by
  obtain ⟨_, hdr, hmem⟩ := parse_ok_entries h
  intro de hde
  obtain ⟨raw, j, hok⟩ := hmem de hde
  exact ⟨(from_raw_ok_inv hok).2.2.2.1, (from_raw_ok_inv hok).2.2.2.2.1,
    (from_raw_ok_inv hok).2.2.2.2.2⟩

/-- Witness for C3 at the stream entry of the parsed `f1_bytes`. -/
theorem claim_c3_witness :
    sid_ok f1_entry1.left_sibling_id = true ∧
    sid_ok f1_entry1.right_sibling_id = true ∧
    sid_ok f1_entry1.child_id = true :=
  claim_c3_stream_ids f1_bytes f1_file (res_file_spec (by decide)) f1_entry1 (by decide)

/-- Counterexample for C3 as stated: `f4_bytes` parses successfully although
its stream entry carries `child_id = 50` while the directory stream holds only
4 slabs (and 2 decoded entries). -/
theorem claim_c3_counterexample :
    Res.map (fun f => (f.directory_entries.map (fun d => d.child_id),
        f.directory_stream_data.length / SIZE_OF_DIRECTORY_ENTRY))
      (OleFile.parse f4_bytes) = .ok ([none, some 50], 4) := by decide

/-! ## Claim C4 -/

/-- Claim C4 (code bug): a slab whose `name_len` is 66 (beyond the 64-byte
name field) or 3 (odd) makes `DirectoryEntry::from_raw` panic — slice range
out of bounds, resp. `pair[1]` on a one-element chunk — instead of failing
with a directory-entry error as the specification requires; with a valid
`name_len` the UTF-16LE name is decoded and the terminating null dropped. -/
theorem claim_c4_name_len_panics :
    DirectoryEntry.from_raw hdr3 (raw_of c4_slab_long) 0 = .crash ∧
    DirectoryEntry.from_raw hdr3 (raw_of c4_slab_odd) 0 = .crash ∧
    Res.map (fun d => d.name) (DirectoryEntry.from_raw hdr3 (raw_of c4_slab_good) 0) =
      .ok [65] ∧
    fromLE (raw_of c4_slab_long).name_len = 66 ∧
    fromLE (raw_of c4_slab_odd).name_len = 3 := by decide

/-! ## Claim C5 (counterexample) -/

/-- Counterexample for C5 as stated: `f5_bytes` has a nonzero MSAT length, yet
`open` does not fail with `CurrentlyUnimplemented` — the FAT-building loop
runs first and panics on the out-of-bounds DIFAT entry 9999. -/
theorem claim_c5_counterexample :
    OleFile.parse f5_bytes = .crash ∧
    Res.map (fun r => (OleHeader.from_raw r).master_sector_allocation_table_len)
      (parse_raw_header f5_bytes) = .ok 1 := by decide

/-! ## Claim C7 (counterexample) -/

/-- Counterexample for C7 as stated: a Storage slab with nonzero stream size
whose name bytes are a lone UTF-16 surrogate makes the parse fail with the
`FromUtf16` error, not a directory-entry error. -/
theorem claim_c7_counterexample :
    DirectoryEntry.from_raw hdr3 (raw_of c7_slab_utf16) 0 = .err .fromUtf16 ∧
    (raw_of c7_slab_utf16).object_type = [1] ∧
    decode_stream_size hdr3 (raw_of c7_slab_utf16).stream_size = 1 := by decide

/-! ## Claim C1 (counterexample) -/

/-- Counterexample for C1 as stated: `f1_bytes` parses successfully, its path
`["A"]` resolves to the Stream entry with `stream_size = 64`, yet
`open_stream` returns 128 bytes — the mini-FAT chain is one tile longer than
the stream size calls for and the loop keeps emitting whole tiles once
`collected_bytes` has passed `stream_size`. -/
theorem claim_c1_counterexample :
    Res.map List.length
      (Res.bind (OleFile.parse f1_bytes) (fun f => f.open_stream [[65]] 1000)) =
      .ok 128 ∧
    Res.map (fun f => f.directory_entries.map (fun d => (d.object_type, d.stream_size)))
      (OleFile.parse f1_bytes) = .ok [(.rootStorage, 128), (.stream, 64)] ∧
    Res.map (fun f => Res.map (Option.map (fun d => d.stream_size))
        (f.find_stream 1000 [[65]] none))
      (OleFile.parse f1_bytes) = .ok (.ok (some 64)) := by decide

/-! ## Claim C9 (counterexample) -/

/-- Counterexample for C9 as stated: in the parsed `f2_bytes` the path `["A"]`
resolves to a Stream entry, so by the claim `open_stream` should return stream
bytes — instead it panics: the entry's starting mini-sector 5 is outside the
two-tile mini-stream. -/
theorem claim_c9_counterexample :
    Res.bind (OleFile.parse f2_bytes) (fun f => f.open_stream [[65]] 1000) = .crash ∧
    Res.map (fun f => Res.map (Option.map (fun d => d.object_type))
        (f.find_stream 1000 [[65]] none))
      (OleFile.parse f2_bytes) = .ok (.ok (some .stream)) := by decide

/-! ## Claim C10 -/

/-- Claim C10 (confirmed): with no parent (the top level of a path),
`find_stream` on a single-segment path scans the whole directory-entry array
in index order and yields the first entry whose name matches — wherever it
sits in the directory tree, not only among the root storage's children. -/
theorem claim_c10_top_level_scan (f : OleFile) (n : List Nat) (fuel : Nat) :
    f.find_stream (fuel + 1) [n] none =
      .ok (f.directory_entries.find? (fun e => e.name == n)) := by
  simp only [OleFile.find_stream]
  cases h : f.directory_entries.find? (fun e => e.name == n) with
  | none => simp
  | some found => simp

/-! ## Digit arithmetic for little-endian decoding -/

theorem fromLE_nil : fromLE [] = 0 := rfl

theorem fromLE_cons (x : Nat) (l : List Nat) : fromLE (x :: l) = x + 256 * fromLE l := rfl

theorem fromLE_append (a b : List Nat) :
    fromLE (a ++ b) = fromLE a + 256 ^ a.length * fromLE b := by
  induction a with
  | nil => simp [fromLE_nil]
  | cons x xs ih =>
    simp only [List.cons_append, fromLE_cons, ih, List.length_cons]
    ring

theorem fromLE_lt (l : List Nat) (h : ∀ b ∈ l, b < 256) :
    fromLE l < 256 ^ l.length := by
  induction l with
  | nil => simp [fromLE_nil]
  | cons x xs ih =>
    have hx : x < 256 := h x (by simp)
    have hxs : fromLE xs < 256 ^ xs.length := ih (fun b hb => h b (by simp [hb]))
    simp only [fromLE_cons, List.length_cons, pow_succ]
    calc x + 256 * fromLE xs < 256 + 256 * fromLE xs := by omega
    _ = 256 * (fromLE xs + 1) := by ring
    _ ≤ 256 * 256 ^ xs.length := by
        have : fromLE xs + 1 ≤ 256 ^ xs.length := hxs
        exact Nat.mul_le_mul_left 256 this
    _ = 256 ^ xs.length * 256 := by ring

/-! ## Claim C6 -/

/-- Claim C6 (confirmed): for a version-3 header the decoded `stream_size` is
the low 32 bits of the on-disk 64-bit field (the upper half is masked to
zero); for any other major version (i.e. 4) the full 64-bit value is used. -/
theorem claim_c6_stream_size_decode (hdr : OleHeader) (raw : DirectoryEntryRaw)
    (i : Nat) (de : DirectoryEntry)
    (h : DirectoryEntry.from_raw hdr raw i = .ok de)
    (hlen : raw.stream_size.length = 8)
    (hbytes : ∀ b ∈ raw.stream_size, b < 256) :
    (hdr.major_version = 3 →
      de.stream_size = fromLE (raw.stream_size.take 4) ∧
      de.stream_size = fromLE raw.stream_size % 4294967296) ∧
    (hdr.major_version ≠ 3 → de.stream_size = fromLE raw.stream_size) := by
  have hsz := (from_raw_ok_inv h).1
  unfold decode_stream_size at hsz
  constructor
  · intro h3
    rw [if_pos (by simpa [MAJOR_VERSION_3_VALUE] using h3)] at hsz
    have hfz : fromLE (raw.stream_size.take 4 ++ [0, 0, 0, 0]) =
        fromLE (raw.stream_size.take 4) := by
      rw [fromLE_append]
      norm_num [fromLE_cons, fromLE_nil]
    have htlen : (raw.stream_size.take 4).length = 4 := by
      simp [List.length_take, hlen]
    have hlt : fromLE (raw.stream_size.take 4) < 4294967296 := by
      have := fromLE_lt (raw.stream_size.take 4)
        (fun b hb => hbytes b (List.take_subset 4 _ hb))
      rw [htlen] at this
      norm_num at this
      exact this
    refine ⟨by rw [hsz, hfz], ?_⟩
    conv_rhs => rw [(List.take_append_drop 4 raw.stream_size).symm]
    rw [fromLE_append, htlen]
    norm_num
    rw [Nat.mod_eq_of_lt hlt, hsz, hfz]
  · intro h3
    rw [if_neg (by simpa [MAJOR_VERSION_3_VALUE] using h3)] at hsz
    exact hsz

/-- Witness for C6: the slab `c6_slab` (size field `1 + 5·2^32`) decodes under
a version-3 header to stream size 1, the low 32 bits. -/
theorem claim_c6_witness :
    c6_entry.stream_size = fromLE (c6_raw.stream_size.take 4) ∧
    c6_entry.stream_size = fromLE c6_raw.stream_size % 4294967296 :=
  (claim_c6_stream_size_decode hdr3 c6_raw 0 c6_entry (by decide) (by decide)
    (by decide)).1 (by decide)

/-! ## Claim C7 -/

/-- Claim C7 (amended): every successfully decoded Storage entry has an absent
starting sector and stream size zero; and a Storage slab whose masked stream
size is nonzero fails with the directory-entry error "stream_size" provided
the fields decoded before the size check (name, colour, sibling ids) go
through — an earlier field failure preempts it with a different error. -/
theorem claim_c7_storage_checks :
    (∀ (hdr : OleHeader) (raw : DirectoryEntryRaw) (i : Nat) (de : DirectoryEntry),
      DirectoryEntry.from_raw hdr raw i = .ok de →
      de.object_type = .storage →
      de.starting_sector_location = none ∧ de.stream_size = 0) ∧
    (∀ (hdr : OleHeader) (raw : DirectoryEntryRaw) (i : Nat) (de0 : DirectoryEntry),
      DirectoryEntry.from_raw hdr { raw with stream_size := List.replicate 8 0 } i = .ok de0 →
      raw.object_type = [1] →
      decode_stream_size hdr raw.stream_size ≠ 0 →
      DirectoryEntry.from_raw hdr raw i = .err (.oleInvalidDirectoryEntry "stream_size")) := by
  constructor
  · intro hdr raw i de h hot
    exact (from_raw_ok_inv h).2.1 hot
  · intro hdr raw i de0 h0 hot hsz
    unfold DirectoryEntry.from_raw at h0 ⊢
    rw [Res.bind_eq_ok] at h0
    obtain ⟨ot, hot2, h0⟩ := h0
    rw [Res.bind_eq_ok] at h0
    obtain ⟨nm, hnm, h0⟩ := h0
    rw [Res.bind_eq_ok] at h0
    obtain ⟨col, hcol, h0⟩ := h0
    rw [Res.bind_eq_ok] at h0
    obtain ⟨lsid, hlsid, h0⟩ := h0
    rw [Res.bind_eq_ok] at h0
    obtain ⟨rsid, hrsid, h0⟩ := h0
    rw [Res.bind_eq_ok] at h0
    obtain ⟨cid, hcid, _⟩ := h0
    have hot3 : decode_object_type raw.object_type = .ok ot := hot2
    have hnm2 : decode_name raw = .ok nm := hnm
    have hcol2 : decode_color raw.color_flag = .ok col := hcol
    have hlsid2 : decode_sid raw.left_sibling_id "left_sibling_id" = .ok lsid := hlsid
    have hrsid2 : decode_sid raw.right_sibling_id "right_sibling_id" = .ok rsid := hrsid
    have hcid2 : decode_sid raw.child_id "child_id" = .ok cid := hcid
    have hots : ot = .storage := by
      rw [hot] at hot3
      simp [decode_object_type] at hot3
      exact hot3.symm
    rw [hot3, hnm2, hcol2, hlsid2, hrsid2, hcid2]
    simp only [Res.bind]
    rw [hots]
    rw [if_pos ⟨hsz, rfl⟩]

/-- Witness for C7: the Storage slab `c7_slab` (size 1) fails with the
"stream_size" directory-entry error; its zero-size twin decodes fine. -/
theorem claim_c7_witness :
    DirectoryEntry.from_raw hdr3 c7_raw 0 = .err (.oleInvalidDirectoryEntry "stream_size") :=
  claim_c7_storage_checks.2 hdr3 c7_raw 0 c7_zero_entry (by decide) (by decide) (by decide)

/-! ## Chunking lemmas -/

theorem chunksExactAux_congr {α : Type _} (n : Nat) :
    ∀ (f1 f2 : Nat) (l : List α), l.length < f1 → l.length < f2 →
      chunksExactAux n f1 l = chunksExactAux n f2 l := by
  intro f1
  induction f1 with
  | zero => intro f2 l h1 _; omega
  | succ m ih =>
    intro f2 l h1 h2
    cases f2 with
    | zero => omega
    | succ m2 =>
      simp only [chunksExactAux]
      split
      · rename_i hc
        congr 1
        exact ih m2 (l.drop n) (by simp [List.length_drop]; omega)
          (by simp [List.length_drop]; omega)
      · rfl

/-- The take/drop unfolding of `chunksExact`. -/
theorem chunksExact_eq {α : Type _} (n : Nat) (l : List α) :
    chunksExact n l =
      if n ≤ l.length ∧ n ≠ 0 then l.take n :: chunksExact n (l.drop n) else [] := by
  have h1 : chunksExact n l = chunksExactAux n (l.length + 1) l := rfl
  rw [h1, chunksExactAux]
  by_cases hc : n ≤ l.length ∧ n ≠ 0
  · rw [if_pos hc, if_pos hc]
    congr 1
    have h2 : chunksExact n (l.drop n) =
        chunksExactAux n ((l.drop n).length + 1) (l.drop n) := rfl
    rw [h2]
    exact chunksExactAux_congr n l.length ((l.drop n).length + 1) (l.drop n)
      (by simp [List.length_drop]; omega) (by omega)
  · rw [if_neg hc, if_neg hc]

theorem chunksExact_length_le {α : Type _} (n : Nat) (hn : 0 < n) :
    ∀ (k : Nat) (l : List α), l.length ≤ k →
      (chunksExact n l).length = l.length / n := by
  intro k
  induction k with
  | zero =>
    intro l h
    have h0 : l.length = 0 := by omega
    rw [chunksExact_eq, if_neg (by omega)]
    simp [h0]
  | succ m ih =>
    intro l h
    rw [chunksExact_eq]
    split
    · rename_i hc
      simp only [List.length_cons]
      rw [ih (l.drop n) (by simp [List.length_drop]; omega)]
      rw [List.length_drop]
      rw [Nat.div_eq_sub_div hn hc.1]
    · rename_i hc
      have hlt : l.length < n := by omega
      simp [Nat.div_eq_of_lt hlt]

theorem chunksExact_length {α : Type _} (n : Nat) (hn : 0 < n) (l : List α) :
    (chunksExact n l).length = l.length / n :=
  chunksExact_length_le n hn l.length l le_rfl

/-! ## Claim C8 -/

/-- `tlen` computes the length (shifted by the accumulator). -/
theorem tlen_eq {α : Type _} : ∀ (l : List α) (acc : Nat), tlen l acc = l.length + acc := by
  intro l
  induction l with
  | nil => intro acc; cases acc <;> simp [tlen]
  | cons x t ih =>
    intro acc
    cases acc with
    | zero => rw [tlen, ih]; simp
    | succ a => rw [tlen, ih]; simp only [List.length_cons]; omega

/-- One step of `load_sectors`, phrased with the usual length comparison. -/
theorem load_sectors_step (ss fuel count : Nat) (body : List Nat) :
    load_sectors ss (fuel + 1) body count =
      if body.length = 0 then .ok []
      else if ss ≤ body.length ∧ 0 < ss then
        Res.map (fun rest => body.take ss :: rest)
          (load_sectors ss fuel (body.drop ss) (count + 1))
      else if 0 < ss then .err (.oleUnexpectedEof count)
      else .crash := by
  cases body with
  | nil => simp [load_sectors]
  | cons b tl =>
    have hiff : (((b :: tl).take ss).length = ss ∧ 0 < ss) ↔
        (ss ≤ (b :: tl).length ∧ 0 < ss) := by
      rw [List.length_take]
      omega
    have h0 : ¬ ((b :: tl).length = 0) := by simp
    rw [if_neg h0]
    simp only [load_sectors]
    by_cases hc : ss ≤ (b :: tl).length ∧ 0 < ss
    · rw [if_pos (hiff.mpr hc), if_pos hc]
    · rw [if_neg (fun h => hc (hiff.mp h)), if_neg hc]

theorem load_sectors_spec (ss : Nat) (hss : 0 < ss) :
    ∀ (fuel : Nat) (body : List Nat) (count : Nat), body.length < fuel →
      (¬ ss ∣ body.length →
        load_sectors ss fuel body count =
          .err (.oleUnexpectedEof (count + body.length / ss))) ∧
      (ss ∣ body.length →
        load_sectors ss fuel body count = .ok (chunksExact ss body)) := by
  intro fuel
  induction fuel with
  | zero => intro body count h; omega
  | succ m ih =>
    intro body count hlen
    by_cases h0 : body.length = 0
    · constructor
      · intro hnd
        exact absurd (h0 ▸ dvd_zero ss) hnd
      · intro _
        rw [load_sectors_step, if_pos h0]
        rw [chunksExact_eq, if_neg (by omega)]
    · by_cases hle : ss ≤ body.length
      · have hrec := ih (body.drop ss) (count + 1) (by simp [List.length_drop]; omega)
        constructor
        · intro hnd
          have hnd2 : ¬ ss ∣ (body.drop ss).length := by
            simp only [List.length_drop]
            intro hd
            refine hnd ?_
            have hsum := Nat.dvd_add hd (dvd_refl ss)
            rwa [Nat.sub_add_cancel hle] at hsum
          rw [load_sectors_step, if_neg h0, if_pos ⟨hle, hss⟩, hrec.1 hnd2]
          simp only [Res.map, List.length_drop]
          have hdiv : body.length / ss = (body.length - ss) / ss + 1 :=
            Nat.div_eq_sub_div hss hle
          rw [hdiv]
          congr 2
          omega
        · intro hd
          have hd2 : ss ∣ (body.drop ss).length := by
            simp only [List.length_drop]
            exact Nat.dvd_sub' hd (dvd_refl ss)
          rw [load_sectors_step, if_neg h0, if_pos ⟨hle, hss⟩, hrec.2 hd2]
          simp only [Res.map]
          rw [chunksExact_eq ss body, if_pos ⟨hle, by omega⟩]
      · have hnd : ¬ ss ∣ body.length := by
          intro hd
          have := Nat.le_of_dvd (by omega) hd
          omega
        constructor
        · intro _
          rw [load_sectors_step, if_neg h0, if_neg (fun hc => hle hc.1), if_pos hss]
          rw [Nat.div_eq_of_lt (by omega)]
          simp
        · intro hd
          exact absurd hd hnd

/-- Claim C8 (confirmed): in the sector-loading loop a positive short read (a
trailing remainder of fewer than sector-size bytes) aborts the parse with
`UnexpectedEof` carrying the number of sectors already read, while reaching
EOF exactly on a sector boundary ends the loop normally; the sectors are the
sector-size chunks of the post-header bytes in read order, numbered from 0. -/
theorem claim_c8_sector_loop (ss : Nat) (body : List Nat) (hss : 0 < ss) :
    (¬ ss ∣ body.length →
      load_sectors ss (body.length + 1) body 0 =
        .err (.oleUnexpectedEof (body.length / ss))) ∧
    (ss ∣ body.length →
      load_sectors ss (body.length + 1) body 0 = .ok (chunksExact ss body)) := by
  have h := load_sectors_spec ss hss (body.length + 1) body 0 (by omega)
  simpa using h

/-- Witness for C8: with 4-byte sectors, a 10-byte body fails with
`UnexpectedEof` after 2 sectors, and an 8-byte body loads as its two in-order
chunks. -/
theorem claim_c8_witness :
    load_sectors 4 11 [1, 2, 3, 4, 5, 6, 7, 8, 9, 10] 0 =
      .err (.oleUnexpectedEof 2) ∧
    load_sectors 4 9 [1, 2, 3, 4, 5, 6, 7, 8] 0 =
      .ok (chunksExact 4 [1, 2, 3, 4, 5, 6, 7, 8]) :=
  ⟨(claim_c8_sector_loop 4 [1, 2, 3, 4, 5, 6, 7, 8, 9, 10] (by decide)).1 (by decide),
   (claim_c8_sector_loop 4 [1, 2, 3, 4, 5, 6, 7, 8] (by decide)).2 (by decide)⟩

/-! ## Claim C5 -/

/-- The DIFAT loop builds exactly the concatenation of the sectors referenced
before the first sentinel, provided those references are in bounds. -/
theorem build_sat_spec (sectors : List (List Nat)) :
    ∀ (head : List Nat),
      (∀ i ∈ head.takeWhile (fun i => !(i == UNALLOCATED_SECTOR || i == CHAIN_END)),
        i < sectors.length) →
      build_sat sectors head =
        .ok (((head.takeWhile (fun i => !(i == UNALLOCATED_SECTOR || i == CHAIN_END))).map
          (fun i => le_u32s (sectors.getD i []))).flatten) := by
  intro head
  induction head with
  | nil => intro _; simp [build_sat]
  | cons x rest ih =>
    intro hb
    by_cases hx : x = UNALLOCATED_SECTOR ∨ x = CHAIN_END
    · have hpx : (!(x == UNALLOCATED_SECTOR || x == CHAIN_END)) = false := by
        rcases hx with h | h <;> simp [h]
      simp only [build_sat]
      rw [if_pos hx, List.takeWhile_cons, hpx]
      simp
    · have hpx : (!(x == UNALLOCATED_SECTOR || x == CHAIN_END)) = true := by
        push_neg at hx
        simp [hx.1, hx.2]
      have hxlt : x < sectors.length := by
        refine hb x ?_
        rw [List.takeWhile_cons, hpx]
        simp
      have hget : sectors[x]? = some (sectors.getD x []) := by
        rw [List.getD_eq_getElem?_getD]
        cases hg : sectors[x]? with
        | none =>
          exfalso
          rw [List.getElem?_eq_none_iff] at hg
          omega
        | some v => simp
      simp only [build_sat]
      rw [if_neg hx, hget]
      rw [ih (fun i hi => hb i (by
        rw [List.takeWhile_cons, hpx]
        simpa using Or.inr hi))]
      simp only [Res.map]
      rw [List.takeWhile_cons, hpx]
      simp

/-- Claim C5 (amended): when the header asks for DIFAT sectors beyond the 109
inline entries (`master_sector_allocation_table_len > 0`), `open` fails with
`CurrentlyUnimplemented` — provided the FAT construction that runs first keeps
its DIFAT sector references in bounds (an out-of-bounds reference panics
before the check; see the counterexample).  Otherwise the FAT is built only
from the header-inline DIFAT entries, stopping at the first
`UNALLOCATED`/`CHAIN_END` sentinel; the header carries exactly 109 of them. -/
theorem claim_c5_msat_and_difat (f : OleFile)
    (hb : ∀ i ∈ head_live f.header, i < f.sectors.length) :
    (0 < f.header.master_sector_allocation_table_len →
      init_sector_allocation_table f = .err .currentlyUnimplemented) ∧
    (f.header.master_sector_allocation_table_len = 0 →
      init_sector_allocation_table f =
        .ok { f with sector_allocation_table := spec_fat f }) ∧
    (∀ (input : List Nat) (raw : RawFileHeader), parse_raw_header input = .ok raw →
      (OleHeader.from_raw raw).sector_allocation_table_head.length = 109) := by
  have hbs := build_sat_spec f.sectors f.header.sector_allocation_table_head hb
  refine ⟨?_, ?_, ?_⟩
  · intro hm
    unfold init_sector_allocation_table
    rw [hbs]
    dsimp only
    rw [if_pos hm]
  · intro hm
    unfold init_sector_allocation_table
    rw [hbs]
    dsimp only
    rw [if_neg (by omega)]
    rfl
  · intro input raw hr
    show raw.sector_allocation_table_head.length = 109
    unfold parse_raw_header at hr
    split at hr
    · cases hr
    · rename_i hlen512
      have h512 : 512 ≤ input.length := by
        simp only [HEADER_LENGTH, List.length_take] at hlen512
        omega
      unfold parse_raw_header_body at hr
      set hd := input.take HEADER_LENGTH with hhd
      by_cases h1 : hslice hd 0 8 ≠ MAGIC_BYTES
      · rw [if_pos h1] at hr; cases hr
      rw [if_neg h1] at hr
      by_cases h2 : hslice hd 8 24 ≠ List.replicate 16 0
      · rw [if_pos h2] at hr; cases hr
      rw [if_neg h2] at hr
      by_cases h3 : hslice hd 24 26 ≠ [0x3E, 0]
      · rw [if_pos h3] at hr; cases hr
      rw [if_neg h3] at hr
      by_cases h4 : hslice hd 26 28 ≠ [3, 0] ∧ hslice hd 26 28 ≠ [4, 0]
      · rw [if_pos h4] at hr; cases hr
      rw [if_neg h4] at hr
      by_cases h5 : hslice hd 28 30 ≠ [0xFE, 0xFF]
      · rw [if_pos h5] at hr; cases hr
      rw [if_neg h5] at hr
      by_cases h6 : ¬ ((hslice hd 26 28 = [3, 0] ∧ hslice hd 30 32 = [9, 0]) ∨
          (hslice hd 26 28 = [4, 0] ∧ hslice hd 30 32 = [0x0C, 0]))
      · rw [if_pos h6] at hr; cases hr
      rw [if_neg h6] at hr
      by_cases h7 : hslice hd 32 34 ≠ [6, 0]
      · rw [if_pos h7] at hr; cases hr
      rw [if_neg h7] at hr
      by_cases h8 : hslice hd 34 40 ≠ List.replicate 6 0
      · rw [if_pos h8] at hr; cases hr
      rw [if_neg h8] at hr
      by_cases h9 : hslice hd 40 44 ≠ List.replicate 4 0 ∧ hslice hd 26 28 = [3, 0]
      · rw [if_pos h9] at hr; cases hr
      rw [if_neg h9] at hr
      by_cases h10 : hslice hd 56 60 ≠ [0, 0x10, 0, 0]
      · rw [if_pos h10] at hr; cases hr
      rw [if_neg h10] at hr
      cases hr
      have hlen : (hslice hd 76 512).length = 436 := by
        simp only [hslice, hhd, List.length_take, List.length_drop, HEADER_LENGTH]
        omega
      simp only [le_u32s, List.length_map]
      rw [chunksExact_length 4 (by norm_num), hlen]

/-- Witness for C5: a file object whose header has a nonzero MSAT length and
an empty inline DIFAT fails with `CurrentlyUnimplemented`. -/
theorem claim_c5_witness :
    init_sector_allocation_table c5_wfile = .err .currentlyUnimplemented :=
  (claim_c5_msat_and_difat c5_wfile (by decide)).1 (by decide)

/-! ## Claim C9 -/

theorem Res.bind_eq_err {α β : Type} {x : Res α} {g : α → Res β} {e : Error} :
    Res.bind x g = .err e ↔ x = .err e ∨ ∃ a, x = .ok a ∧ g a = .err e := by
  cases x <;> simp [Res.bind]

theorem sib_lookup_no_err (f : OleFile) (o : Option Nat) (b : Bool) (e : Error) :
    sib_lookup f o b ≠ .err e := by
  unfold sib_lookup
  split
  · simp
  · split <;> simp

theorem collect_entries_no_err (f : OleFile) (p : DirectoryEntry) (e : Error) :
    collect_entries f p ≠ .err e := by
  unfold collect_entries
  intro h
  rw [Res.bind_eq_err] at h
  rcases h with h | ⟨c, _, h⟩
  · exact sib_lookup_no_err f _ _ _ h
  rw [Res.bind_eq_err] at h
  rcases h with h | ⟨l, _, h⟩
  · exact sib_lookup_no_err f _ _ _ h
  rw [Res.bind_eq_err] at h
  rcases h with h | ⟨r, _, h⟩
  · exact sib_lookup_no_err f _ _ _ h
  · cases h

theorem search_entries_no_err (first : List Nat) (remainder sp : List (List Nat))
    (rec : List (List Nat) → Option DirectoryEntry → Res (Option DirectoryEntry))
    (hrec : ∀ sp2 par e2, rec sp2 par ≠ .err e2) :
    ∀ (lst : List (DirectoryEntry × Bool)) (e : Error),
      search_entries first remainder sp rec lst ≠ .err e := by
  intro lst
  induction lst with
  | nil => intro e h; simp [search_entries] at h
  | cons c rest ih =>
    obtain ⟨entry, is_child⟩ := c
    intro e h
    rw [search_entries] at h
    by_cases hname : (entry.name == first) = true
    · rw [if_pos hname] at h
      split at h
      · cases h
      · split at h
        · exact hrec _ _ _ h
        · exact hrec _ _ _ h
    · rw [if_neg hname] at h
      cases hrr : rec sp (some entry) with
      | ok o =>
        cases o with
        | some found => rw [hrr] at h; cases h
        | none =>
          rw [hrr] at h
          exact ih e h
      | err e2 => exact hrec _ _ _ hrr
      | crash => rw [hrr] at h; cases h

theorem find_stream_no_err (f : OleFile) :
    ∀ (fuel : Nat) (sp : List (List Nat)) (par : Option DirectoryEntry) (e : Error),
      f.find_stream fuel sp par ≠ .err e := by
  intro fuel
  induction fuel with
  | zero => intro sp par e h; simp [OleFile.find_stream] at h
  | succ m ih =>
    intro sp par e h
    simp only [OleFile.find_stream] at h
    cases sp with
    | nil => simp at h
    | cons first remainder =>
      cases par with
      | some p =>
        dsimp only at h
        cases hce : collect_entries f p with
        | crash => rw [hce] at h; cases h
        | err e2 =>
          rw [hce] at h
          dsimp only at h
          cases h
          exact collect_entries_no_err f p _ hce
        | ok lst =>
          rw [hce] at h
          dsimp only at h
          exact search_entries_no_err first remainder (first :: remainder) _
            (fun sp2 par2 e2 => ih sp2 par2 e2) _ e h
      | none =>
        dsimp only at h
        split at h
        · rename_i found hfound
          split at h
          · cases h
          · exact ih remainder (some found) e h
        · cases h

theorem read_loop_no_err (table : List Nat) (blocks : List (List Nat)) (size : Nat) :
    ∀ (fuel next c : Nat) (e : Error),
      read_stream_loop table blocks size fuel next c ≠ .err e := by
  intro fuel
  induction fuel with
  | zero => intro next c e h; simp [read_stream_loop] at h
  | succ m ih =>
    intro next c e h
    rw [read_stream_loop] at h
    split at h
    · cases h
    · split at h
      · cases h
      · dsimp only at h
        split at h
        · cases h
        · rw [Res.map_eq_err] at h
          exact ih _ _ e h

/-- Claim C9 (amended): `open_stream` returns `DirectoryEntryNotFound` exactly
when the path fails to resolve to a Stream entry (no entry at all, or a
Storage or RootStorage entry); when the path does resolve to a Stream, the
result is either the stream bytes or a panic/divergence of the chain walk —
never that error (the panic case refutes the claim's unconditional "returns
stream bytes"; see the counterexample). -/
theorem claim_c9_not_found_iff (f : OleFile) (path : List (List Nat)) (fuel : Nat) :
    (f.open_stream path fuel = .err .oleDirectoryEntryNotFound ↔
      Res.map (Option.map (fun d => d.object_type)) (f.find_stream fuel path none) =
          .ok none ∨
      Res.map (Option.map (fun d => d.object_type)) (f.find_stream fuel path none) =
          .ok (some .storage) ∨
      Res.map (Option.map (fun d => d.object_type)) (f.find_stream fuel path none) =
          .ok (some .rootStorage)) ∧
    (Res.map (Option.map (fun d => d.object_type)) (f.find_stream fuel path none) =
        .ok (some .stream) →
      f.open_stream path fuel = .crash ∨ is_ok (f.open_stream path fuel) = true) := by
  unfold OleFile.open_stream
  cases hf : f.find_stream fuel path none with
  | crash => simp [Res.map]
  | err e => exact absurd hf (find_stream_no_err f fuel path none e)
  | ok o =>
    cases o with
    | none => simp [Res.map]
    | some de =>
      simp only [Res.map, Res.ok.injEq, Option.map_some']
      by_cases hty : de.object_type = .stream
      · rw [if_pos hty]
        constructor
        · constructor
          · intro hcr
            exfalso
            cases hs : de.starting_sector_location with
            | none =>
              rw [hs] at hcr
              dsimp only at hcr
              cases hcr
            | some start =>
              rw [hs] at hcr
              dsimp only at hcr
              split at hcr
              · exact read_loop_no_err _ _ _ _ _ _ _ hcr
              · exact read_loop_no_err _ _ _ _ _ _ _ hcr
          · rintro (hc | hc | hc) <;> rw [hty] at hc <;> cases hc
        · intro _
          cases hs : de.starting_sector_location with
          | none => left; rfl
          | some start =>
            dsimp only
            split
            · cases hr : read_stream_loop f.short_sector_allocation_table f.mini_stream
                  de.stream_size fuel start 0 with
              | ok bs => right; rfl
              | err e => exact absurd hr (read_loop_no_err _ _ _ _ _ _ _)
              | crash => left; rfl
            · cases hr : read_stream_loop f.sector_allocation_table f.sectors
                  de.stream_size fuel start 0 with
              | ok bs => right; rfl
              | err e => exact absurd hr (read_loop_no_err _ _ _ _ _ _ _)
              | crash => left; rfl
      · rw [if_neg hty]
        constructor
        · constructor
          · intro _
            cases hot : de.object_type with
            | stream => exact absurd hot hty
            | storage => right; left; rfl
            | rootStorage => right; right; rfl
          · intro _; rfl
        · intro hc
          rw [Option.some.injEq] at hc
          exact absurd hc hty

/-! ## Claim C1 -/

/-- The inner byte loop emits `min blk.length (size - collected)` bytes while
`collected < size`. -/
theorem collect_bytes_length :
    ∀ (blk : List Nat) (c size : Nat), c < size →
      (collect_bytes blk c size).length = min blk.length (size - c) := by
  intro blk
  induction blk with
  | nil => intro c size _; simp [collect_bytes]
  | cons b rest ih =>
    intro c size hc
    simp only [collect_bytes, List.length_cons]
    split
    · rename_i he
      simp only [List.length_nil]
      omega
    · rename_i he
      rw [ih (c + 1) size (by omega)]
      omega

/-- Walking an exact chain of `k = ⌈(size - collected) / L⌉` blocks of length
`L` emits exactly `size - collected` bytes. -/
theorem read_loop_exact :
    ∀ (ch : List Nat) (table : List Nat) (blocks : List (List Nat))
      (L size fuel start collected : Nat),
      0 < L → (∀ b ∈ blocks, b.length = L) →
      is_chain table blocks.length start ch = true →
      collected < size →
      size - collected ≤ ch.length * L →
      (ch.length - 1) * L < size - collected →
      ch.length < fuel →
      Res.map List.length (read_stream_loop table blocks size fuel start collected) =
        .ok (size - collected) := by
  intro ch
  induction ch with
  | nil => intro table blocks L size fuel start collected _ _ hchain _ _ _ _; cases hchain
  | cons s rest ih =>
    intro table blocks L size fuel start collected hL hblocks hchain hcol hub hlb hfuel
    simp only [is_chain, Bool.and_eq_true, beq_iff_eq, bne_iff_ne, ne_eq,
      decide_eq_true_eq] at hchain
    obtain ⟨⟨⟨⟨hstart, hsne⟩, hslt⟩, hstl⟩, hrest⟩ := hchain
    subst hstart
    obtain ⟨fuel', rfl⟩ : ∃ m, fuel = m + 1 := ⟨fuel - 1, by omega⟩
    rw [read_stream_loop]
    rw [if_neg hsne]
    have hblk : blocks[s]? = some blocks[s] := List.getElem?_eq_getElem hslt
    rw [hblk]
    have hblkL : blocks[s].length = L := hblocks _ (List.getElem_mem hslt)
    dsimp only
    have h1 : table[s]? = some table[s] := List.getElem?_eq_getElem hstl
    have htab : table[s]? = some (table.getD s 0) := by
      rw [List.getD_eq_getElem?_getD, h1]
      rfl
    rw [htab]
    dsimp only
    have hcb := collect_bytes_length blocks[s] collected size hcol
    rw [hblkL] at hcb
    cases rest with
    | nil =>
      simp only [List.isEmpty_nil, if_true, beq_iff_eq] at hrest
      rw [hrest]
      obtain ⟨fuel'', rfl⟩ : ∃ m, fuel' = m + 1 := ⟨fuel' - 1, by simp at hfuel; omega⟩
      rw [read_stream_loop]
      rw [if_pos rfl]
      simp only [Res.map, Res.ok.injEq, List.length_append, List.length_nil]
      simp only [List.length_cons, List.length_nil, Nat.one_mul] at hub hlb
      omega
    | cons r rest2 =>
      simp only [List.isEmpty_cons, if_false] at hrest
      simp only [List.length_cons] at hub hlb hfuel
      have e2 : (rest2.length + 1 + 1) * L = (rest2.length + 1) * L + L :=
        Nat.succ_mul _ L
      have e1 : (rest2.length + 1) * L = rest2.length * L + L := Nat.succ_mul _ L
      have e0 : rest2.length + 1 + 1 - 1 = rest2.length + 1 := by omega
      rw [e0] at hlb
      have hLlt : L < size - collected := by omega
      have hemit : (collect_bytes blocks[s] collected size).length = L := by omega
      have hrec := ih table blocks L size fuel' (table.getD s 0) (collected + L) hL
        hblocks hrest
        (by omega)
        (by simp only [List.length_cons]; omega)
        (by simp only [List.length_cons, Nat.add_sub_cancel]; omega)
        (by simp only [List.length_cons]; omega)
      rw [Res.map_eq_ok] at hrec
      obtain ⟨data2, hdata2, hlen2⟩ := hrec
      rw [hemit, hdata2]
      simp only [Res.map, Res.ok.injEq, List.length_append]
      omega

/-- Claim C1 (amended): when the path resolves to a Stream entry of positive
size whose chain (mini-FAT below the 4096 cutoff, FAT otherwise) consists of
exactly `⌈stream_size / L⌉` in-bounds blocks of length `L`, `open_stream`
succeeds with exactly `stream_size` bytes.  (The parser never validates chain
lengths, and a longer or shorter chain yields more or fewer bytes — see the
counterexample.) -/
theorem claim_c1_stream_length (f : OleFile) (path : List (List Nat))
    (de : DirectoryEntry) (fuel start L : Nat) (ch : List Nat)
    (hfind : f.find_stream fuel path none = .ok (some de))
    (hty : de.object_type = .stream)
    (hstart : de.starting_sector_location = some start)
    (hL : 0 < L)
    (hblocks : ∀ b ∈ stream_blocks f de, b.length = L)
    (hchain : is_chain (stream_table f de) (stream_blocks f de).length start ch = true)
    (hpos : 0 < de.stream_size)
    (hub : de.stream_size ≤ ch.length * L)
    (hlb : (ch.length - 1) * L < de.stream_size)
    (hfuel : ch.length < fuel) :
    Res.map List.length (f.open_stream path fuel) = .ok de.stream_size := by
  unfold OleFile.open_stream
  rw [hfind]
  dsimp only
  rw [if_pos hty, hstart]
  dsimp only
  by_cases hcut : de.stream_size < f.header.standard_stream_min_size
  · rw [if_pos hcut]
    have hbl := hblocks
    have hch := hchain
    unfold stream_blocks at hbl
    unfold stream_blocks stream_table at hch
    simp only [if_pos hcut] at hbl hch
    have := read_loop_exact ch f.short_sector_allocation_table f.mini_stream L
      de.stream_size fuel start 0 hL hbl hch (by omega) (by omega) (by omega) hfuel
    simpa using this
  · rw [if_neg hcut]
    have hbl := hblocks
    have hch := hchain
    unfold stream_blocks at hbl
    unfold stream_blocks stream_table at hch
    simp only [if_neg hcut] at hbl hch
    have := read_loop_exact ch f.sector_allocation_table f.sectors L
      de.stream_size fuel start 0 hL hbl hch (by omega) (by omega) (by omega) hfuel
    simpa using this

/-- Witness for C1: on the one-stream `wtest_file` the 10-byte stream "A" with
the exact one-tile chain reads back exactly 10 bytes. -/
theorem claim_c1_witness :
    Res.map List.length (OleFile.open_stream wtest_file [[65]] 5) = .ok 10 :=
  claim_c1_stream_length wtest_file [[65]] wtest_entry 5 0 64 [0]
    (by decide) (by decide) (by decide) (by decide) (by decide) (by decide)
    (by decide) (by decide) (by decide) (by decide)

/-- Witness for C9 at a concrete file: on `wtest_file` a missing name yields
exactly `DirectoryEntryNotFound`. -/
theorem claim_c9_witness :
    OleFile.open_stream wtest_file [[66]] 5 = .err .oleDirectoryEntryNotFound ↔
      Res.map (Option.map (fun d => d.object_type))
          (OleFile.find_stream wtest_file 5 [[66]] none) = .ok none ∨
      Res.map (Option.map (fun d => d.object_type))
          (OleFile.find_stream wtest_file 5 [[66]] none) = .ok (some .storage) ∨
      Res.map (Option.map (fun d => d.object_type))
          (OleFile.find_stream wtest_file 5 [[66]] none) = .ok (some .rootStorage) :=
  (claim_c9_not_found_iff wtest_file [[66]] 5).1

end Ole
